import Mathlib

/-!
Verification of `nvvk::GBuffer` (gbuffers.cpp) against its natural-language
specification.  The C++ class is shallowly embedded: the four data members
(`m_res`, `m_size`, `m_info`, `m_descLayout`) become a Lean structure, machine
handles become `Nat` (with `0` playing `VK_NULL_HANDLE`), `VkResult` becomes
`Int` (with `0` playing `VK_SUCCESS`), and every side effect (Vulkan host call,
allocator call, command recorded into the command buffer) is logged into an
explicit event trace.  Fallible external calls (allocator `createImage`,
`vkCreateImageView`, `vkCreateDescriptorSetLayout`, `vkAllocateDescriptorSets`)
are resolved by an oracle `Env` indexed by the position of the call in the
execution: `Env.res k` is the `VkResult` of the `k`-th fallible call, and
`Env.h1/h2/hs` supply the handles it produces.
-/

namespace nvvk

/-- Vulkan object handles are modelled as naturals; `0` is `VK_NULL_HANDLE`. -/
abbrev Handle := Nat

/-- `VkFormat` modelled as a natural; `0` is `VK_FORMAT_UNDEFINED`. -/
abbrev VkFormat := Nat

def VK_FORMAT_UNDEFINED : VkFormat := 0

/-- `VkResult` modelled as an integer; `0` is `VK_SUCCESS`, failures are nonzero. -/
abbrev VkResult := Int

def VK_SUCCESS : VkResult := 0

structure VkExtent2D where
  width : Nat
  height : Nat
deriving DecidableEq, Repr

/-- The image layouts appearing in gbuffers.cpp. -/
inductive VkImageLayout where
  | undefined
  | transferDstOptimal
  | shaderReadOnlyOptimal
  | colorAttachmentOptimal
  | depthStencilAttachmentOptimal
deriving DecidableEq, Repr

inductive VkImageAspect where
  | color
  | depth
deriving DecidableEq, Repr

structure VkDescriptorImageInfo where
  sampler : Handle
  imageView : Handle
  imageLayout : VkImageLayout
deriving DecidableEq, Repr

/-- `nvvk::Image`: the allocator-produced image resource.  The handle of the
GPU image, its descriptor record, and the pixel format the image was created
with (the `format` field of the `VkImageCreateInfo` passed to the allocator). -/
structure Image where
  image : Handle
  descriptor : VkDescriptorImageInfo
  format : VkFormat
deriving DecidableEq, Repr

/-- The value-initialized `nvvk::Image{}`. -/
def Image.null : Image :=
  { image := 0
    descriptor := { sampler := 0, imageView := 0, imageLayout := .undefined }
    format := VK_FORMAT_UNDEFINED }

instance : Inhabited Image := ⟨Image.null⟩

def VK_IMAGE_USAGE_TRANSFER_SRC_BIT : Nat := 1
def VK_IMAGE_USAGE_TRANSFER_DST_BIT : Nat := 2
def VK_IMAGE_USAGE_SAMPLED_BIT : Nat := 4
def VK_IMAGE_USAGE_STORAGE_BIT : Nat := 8
def VK_IMAGE_USAGE_COLOR_ATTACHMENT_BIT : Nat := 16
def VK_IMAGE_USAGE_DEPTH_STENCIL_ATTACHMENT_BIT : Nat := 32
def VK_IMAGE_USAGE_TRANSIENT_ATTACHMENT_BIT : Nat := 64

/-- The fields of `VkImageCreateInfo` that gbuffers.cpp sets (all images are
2D, one mip level, one array layer; the extent depth is always 1). -/
structure VkImageCreateInfo where
  format : VkFormat
  width : Nat
  height : Nat
  samples : Nat
  usage : Nat
deriving DecidableEq, Repr

/-- The fields of `VkImageViewCreateInfo` that gbuffers.cpp sets.
`alphaSwizzleOne` is `components.a == VK_COMPONENT_SWIZZLE_ONE`. -/
structure VkImageViewCreateInfo where
  image : Handle
  format : VkFormat
  aspect : VkImageAspect
  alphaSwizzleOne : Bool
deriving DecidableEq, Repr

/-- The fields of `VkImageMemoryBarrier2` that the claims are about, as
produced by `nvvk::makeImageMemoryBarrier`.

Modelled from the spec: `nvvk::makeImageMemoryBarrier` (barriers.hpp) is not
under src/; per spec section 4.3 each transition descriptor (image, old
layout, new layout, subresource range) becomes one entry of the batched
barrier call. -/
structure VkImageMemoryBarrier2 where
  image : Handle
  oldLayout : VkImageLayout
  newLayout : VkImageLayout
  aspect : VkImageAspect
deriving DecidableEq, Repr

/-- Clear color; gbuffers.cpp only ever uses `{{0.F, 0.F, 0.F, 0.F}}`, whose
float components are exactly representable, so ℚ components are faithful. -/
structure VkClearColorValue where
  r : ℚ
  g : ℚ
  b : ℚ
  a : ℚ
deriving DecidableEq, Repr

/-- A command recorded into the supplied `VkCommandBuffer`. -/
inductive Cmd where
  | pipelineBarrier2 (barriers : List VkImageMemoryBarrier2)
  | clearColorImage (image : Handle) (layout : VkImageLayout) (value : VkClearColorValue)
  | clearDepthStencilImage (image : Handle) (layout : VkImageLayout) (depth : ℚ) (stencil : Nat)
deriving DecidableEq, Repr

inductive VkDescriptorType where
  | combinedImageSampler
deriving DecidableEq, Repr

inductive VkShaderStage where
  | fragment
deriving DecidableEq, Repr

structure VkDescriptorSetLayoutBinding where
  binding : Nat
  descriptorType : VkDescriptorType
  descriptorCount : Nat
  stageFlags : VkShaderStage
deriving DecidableEq, Repr

/-- The fields of `VkWriteDescriptorSet` set by gbuffers.cpp (the
`pImageInfo` record is inlined). -/
structure VkWriteDescriptorSet where
  dstSet : Handle
  descriptorCount : Nat
  descriptorType : VkDescriptorType
  sampler : Handle
  imageView : Handle
  imageLayout : VkImageLayout
deriving DecidableEq, Repr

/-- Every observable side effect of the class: Vulkan/allocator host calls and
commands recorded into the command buffer.  Debug-name registration
(`DebugUtil::setObjectName`) is best-effort with no correctness content (spec
section 6) and is not logged. -/
inductive Event where
  | deviceWaitIdle (device : Handle)
  | allocCreateImage (image : Handle) (view : Handle)
      (info : VkImageCreateInfo) (viewInfo : VkImageViewCreateInfo)
  | createImageView (view : Handle) (info : VkImageViewCreateInfo)
  | cmd (c : Cmd)
  | createDescriptorSetLayout (layout : Handle) (binding : VkDescriptorSetLayoutBinding)
  | allocateDescriptorSets (pool : Handle) (layouts : List Handle) (sets : List Handle)
  | updateDescriptorSets (writes : List VkWriteDescriptorSet)
  | destroyImage (image : Handle)
  | freeDescriptorSets (pool : Handle) (sets : List Handle)
  | destroyDescriptorSetLayout (layout : Handle)
  | destroyImageView (view : Handle)
deriving DecidableEq, Repr

/-- Teardown-kind events: destruction / freeing of sub-resources. -/
def Event.isTeardown : Event → Bool
  | .destroyImage _ => true
  | .freeDescriptorSets _ _ => true
  | .destroyDescriptorSetLayout _ => true
  | .destroyImageView _ => true
  | _ => false

/-- Construction-kind events: creation calls and recorded commands. -/
def Event.isBuild : Event → Bool
  | .allocCreateImage _ _ _ _ => true
  | .createImageView _ _ => true
  | .cmd _ => true
  | .createDescriptorSetLayout _ _ => true
  | .allocateDescriptorSets _ _ _ => true
  | .updateDescriptorSets _ => true
  | _ => false

/-- The commands recorded into the command buffer, extracted from a trace. -/
def cmdsOf (evs : List Event) : List Cmd :=
  evs.filterMap fun e =>
    match e with
    | .cmd c => some c
    | _ => none

/-- The `GBufferResources` aggregate (`m_res`). -/
structure GBufferResources where
  gBufferColor : List Image
  gBufferColorMSAA : List Image
  gBufferDepth : Image
  uiImageViews : List Handle
  uiDescriptorSets : List Handle
deriving DecidableEq, Repr

def GBufferResources.empty : GBufferResources :=
  { gBufferColor := [], gBufferColorMSAA := [], gBufferDepth := Image.null
    uiImageViews := [], uiDescriptorSets := [] }

/-- `GBufferInitInfo`.  The allocator collaborator is reduced to the one datum
gbuffers.cpp reads from it, its device handle (`getDevice()`); `none` models a
null allocator pointer.  `sampleCount` default 1 means no multisampling.

Modelled from the spec: the header (gbuffers.hpp) with the default member
initializers is not under src/; defaults follow spec section 3 (sample count 1
means no multisampling, depth sentinel `VK_FORMAT_UNDEFINED`, optional
handles absent). -/
structure GBufferInitInfo where
  allocator : Option Handle
  colorFormats : List VkFormat
  depthFormat : VkFormat
  sampleCount : Nat
  imageSampler : Handle
  descriptorPool : Handle
deriving DecidableEq, Repr

def GBufferInitInfo.empty : GBufferInitInfo :=
  { allocator := none, colorFormats := [], depthFormat := VK_FORMAT_UNDEFINED
    sampleCount := 1, imageSampler := 0, descriptorPool := 0 }

/-- The `nvvk::GBuffer` class state: its four data members. -/
structure GBuffer where
  m_res : GBufferResources
  m_size : VkExtent2D
  m_info : GBufferInitInfo
  m_descLayout : Handle
deriving DecidableEq, Repr

/-- A freshly constructed (equivalently, deinited) `GBuffer`. -/
def GBuffer.empty : GBuffer :=
  { m_res := GBufferResources.empty, m_size := ⟨0, 0⟩
    m_info := GBufferInitInfo.empty, m_descLayout := 0 }

/-- Oracle for the external fallible calls, indexed by the position of the
call in the execution (0, 1, 2, ... in call order).  `res k` is the `VkResult`
of the `k`-th call; `h1 k`/`h2 k` the handles it yields (image+view for
allocator `createImage`, view for `vkCreateImageView`, layout for
`vkCreateDescriptorSetLayout`); `hs k i` the `i`-th descriptor set yielded by
an `vkAllocateDescriptorSets` call at position `k`. -/
structure Env where
  res : Nat → VkResult
  h1 : Nat → Handle
  h2 : Nat → Handle
  hs : Nat → Nat → Handle

/-- The same oracle with every call forced to succeed. -/
def Env.allOk (env : Env) : Env := { env with res := fun _ => VK_SUCCESS }

/-- `std::vector::resize(n)`: truncate to `n` or pad with value-initialized
elements up to `n`. -/
def listResize {α : Type} (l : List α) (n : Nat) (d : α) : List α :=
  l.take n ++ List.replicate (n - l.length) d

/-- State threaded through `initResources`: the resources being built, the
descriptor-set layout member, the next fallible-call position, and the event
trace emitted so far. -/
structure BuildSt where
  res : GBufferResources
  descLayout : Handle
  k : Nat
  events : List Event
deriving Repr

/-- Fallible calls per color-loop iteration: color image, UI view, and the
MSAA image when `sampleCount > 1`. -/
def cpc (info : GBufferInitInfo) : Nat := if 1 < info.sampleCount then 3 else 2

def colorUsage : Nat :=
  VK_IMAGE_USAGE_COLOR_ATTACHMENT_BIT ||| VK_IMAGE_USAGE_SAMPLED_BIT
    ||| VK_IMAGE_USAGE_TRANSFER_SRC_BIT ||| VK_IMAGE_USAGE_TRANSFER_DST_BIT
    ||| VK_IMAGE_USAGE_STORAGE_BIT

def msaaUsage : Nat :=
  VK_IMAGE_USAGE_COLOR_ATTACHMENT_BIT ||| VK_IMAGE_USAGE_TRANSIENT_ATTACHMENT_BIT
    ||| VK_IMAGE_USAGE_TRANSFER_DST_BIT

def depthUsage : Nat :=
  VK_IMAGE_USAGE_DEPTH_STENCIL_ATTACHMENT_BIT ||| VK_IMAGE_USAGE_SAMPLED_BIT
    ||| VK_IMAGE_USAGE_TRANSFER_SRC_BIT ||| VK_IMAGE_USAGE_TRANSFER_DST_BIT

/-- The `VkImageCreateInfo` for a single-sample color target (lines 180-189). -/
def colorImageInfo (size : VkExtent2D) (fmt : VkFormat) : VkImageCreateInfo :=
  { format := fmt, width := size.width, height := size.height, samples := 1, usage := colorUsage }

/-- The `VkImageViewCreateInfo` for the primary color view (lines 190-195):
`image` and `components` still value-initialized. -/
def colorViewInfo (fmt : VkFormat) : VkImageViewCreateInfo :=
  { image := 0, format := fmt, aspect := .color, alphaSwizzleOne := false }

/-- The same local `viewInfo` after lines 201-202 set `image` and force the
alpha swizzle to one; this is the info used for the UI view and (reused
verbatim in the C++) for the MSAA view. -/
def uiViewInfo (fmt : VkFormat) (img : Handle) : VkImageViewCreateInfo :=
  { image := img, format := fmt, aspect := .color, alphaSwizzleOne := true }

/-- The `VkImageCreateInfo` for an MSAA shadow (lines 212-215). -/
def msaaImageInfo (info : GBufferInitInfo) (size : VkExtent2D) (fmt : VkFormat) : VkImageCreateInfo :=
  { format := fmt, width := size.width, height := size.height
    samples := info.sampleCount, usage := msaaUsage }

/-- The `VkImageCreateInfo` for the depth target (lines 226-236). -/
def depthImageInfo (info : GBufferInitInfo) (size : VkExtent2D) : VkImageCreateInfo :=
  { format := info.depthFormat, width := size.width, height := size.height
    samples := info.sampleCount, usage := depthUsage }

/-- The `VkImageViewCreateInfo` for the depth view (lines 237-242). -/
def depthViewInfo (info : GBufferInitInfo) : VkImageViewCreateInfo :=
  { image := 0, format := info.depthFormat, aspect := .depth, alphaSwizzleOne := false }

/-- One iteration `c` of the color loop (lines 175-221): create the color
image+view, the UI view, set the sampler, and create the MSAA twin when
multisampling is on.  `NVVK_FAIL_RETURN` aborts on the first nonzero result.

Modelled from the spec: `NVVK_FAIL_RETURN` (check_error.hpp) is not under
src/; per spec sections 4.2 and 7 it propagates the failing sub-operation's
result code, aborting the remainder of bundle construction. -/
def colorStep (env : Env) (info : GBufferInitInfo) (size : VkExtent2D) (c : Nat)
    (fmt : VkFormat) (st : BuildSt) : VkResult × BuildSt :=
  let isMsaa := 1 < info.sampleCount
  let r1 := env.res st.k
  let img := env.h1 st.k
  let vw := env.h2 st.k
  let st1 : BuildSt :=
    { st with
      k := st.k + 1,
      events := st.events ++ [Event.allocCreateImage img vw (colorImageInfo size fmt) (colorViewInfo fmt)] }
  if r1 ≠ VK_SUCCESS then (r1, st1) else
  let entry1 : Image :=
    { image := img, descriptor := { sampler := 0, imageView := vw, imageLayout := .undefined }
      format := fmt }
  let st2 : BuildSt := { st1 with res := { st1.res with gBufferColor := st1.res.gBufferColor.set c entry1 } }
  let r2 := env.res st2.k
  let uiv := env.h1 st2.k
  let st3 : BuildSt :=
    { st2 with
      k := st2.k + 1,
      events := st2.events ++ [Event.createImageView uiv (uiViewInfo fmt img)] }
  if r2 ≠ VK_SUCCESS then (r2, st3) else
  let st4 : BuildSt := { st3 with res := { st3.res with uiImageViews := st3.res.uiImageViews.set c uiv } }
  let entry2 : Image := { entry1 with descriptor := { entry1.descriptor with sampler := info.imageSampler } }
  let st5 : BuildSt := { st4 with res := { st4.res with gBufferColor := st4.res.gBufferColor.set c entry2 } }
  if isMsaa then
    let r3 := env.res st5.k
    let mimg := env.h1 st5.k
    let mvw := env.h2 st5.k
    let st6 : BuildSt :=
      { st5 with
      k := st5.k + 1,
        events := st5.events ++ [Event.allocCreateImage mimg mvw (msaaImageInfo info size fmt) (uiViewInfo fmt img)] }
    if r3 ≠ VK_SUCCESS then (r3, st6) else
    let mentry : Image :=
      { image := mimg, descriptor := { sampler := 0, imageView := mvw, imageLayout := .undefined }
        format := fmt }
    (VK_SUCCESS, { st6 with res := { st6.res with gBufferColorMSAA := st6.res.gBufferColorMSAA.set c mentry } })
  else
    (VK_SUCCESS, st5)

/-- The color loop, `c` counting the current index. -/
def colorLoop (env : Env) (info : GBufferInitInfo) (size : VkExtent2D) :
    Nat → List VkFormat → BuildSt → VkResult × BuildSt
  | _, [], st => (VK_SUCCESS, st)
  | c, fmt :: rest, st =>
    let p := colorStep env info size c fmt st
    if p.1 = VK_SUCCESS then colorLoop env info size (c + 1) rest p.2 else p

/-- Depth-buffer creation (lines 223-246), run when the configured depth
format is not the undefined sentinel. -/
def depthStep (env : Env) (info : GBufferInitInfo) (size : VkExtent2D) (st : BuildSt) :
    VkResult × BuildSt :=
  let r := env.res st.k
  let img := env.h1 st.k
  let vw := env.h2 st.k
  let st1 : BuildSt :=
    { st with
      k := st.k + 1,
      events := st.events ++ [Event.allocCreateImage img vw (depthImageInfo info size) (depthViewInfo info)] }
  if r ≠ VK_SUCCESS then (r, st1) else
  (VK_SUCCESS,
    { st1 with res := { st1.res with gBufferDepth :=
      { image := img, descriptor := { sampler := 0, imageView := vw, imageLayout := .undefined }
        format := info.depthFormat } } })

def clearZero : VkClearColorValue := ⟨0, 0, 0, 0⟩

/-- An `nvvk::Image` whose tracked descriptor layout has been updated. -/
def imageWithLayout (im : Image) (l : VkImageLayout) : Image :=
  { im with descriptor := { im.descriptor with imageLayout := l } }

/-- A barrier of `nvvk::makeImageMemoryBarrier` form: undefined layout to
transfer-destination layout (phase A of the clear protocol). -/
def barrierToTransferDst (a : VkImageAspect) (h : Handle) : VkImageMemoryBarrier2 :=
  { image := h, oldLayout := .undefined, newLayout := .transferDstOptimal, aspect := a }

/-- Phase-C barrier for a color target: transfer-destination to
shader-read-only. -/
def barrierColorFinal (h : Handle) : VkImageMemoryBarrier2 :=
  { image := h, oldLayout := .transferDstOptimal, newLayout := .shaderReadOnlyOptimal
    aspect := .color }

/-- Phase-C barrier for an MSAA shadow: transfer-destination to
color-attachment. -/
def barrierMsaaFinal (h : Handle) : VkImageMemoryBarrier2 :=
  { image := h, oldLayout := .transferDstOptimal, newLayout := .colorAttachmentOptimal
    aspect := .color }

/-- Phase-C barrier for the depth target: transfer-destination to
depth-stencil-attachment. -/
def barrierDepthFinal (h : Handle) : VkImageMemoryBarrier2 :=
  { image := h, oldLayout := .transferDstOptimal, newLayout := .depthStencilAttachmentOptimal
    aspect := .depth }

/-- The clear command recorded for a color or MSAA image: clear to
`(0,0,0,0)` while in transfer-destination layout. -/
def clearCmdColor (h : Handle) : Cmd := Cmd.clearColorImage h .transferDstOptimal clearZero

/-- The clear command recorded for the depth image: clear to depth `1.0`,
stencil `0`, while in transfer-destination layout. -/
def clearCmdDepth (h : Handle) : Cmd := Cmd.clearDepthStencilImage h .transferDstOptimal 1 0

/-- The phase-A barrier batch (lines 257-284): every color image (and MSAA
twin when multisampling) and the depth image if present, undefined to
transfer-destination. -/
def phaseABarriers (info : GBufferInitInfo) (colors msaas : List Image) (depthImg : Image) :
    List VkImageMemoryBarrier2 :=
  ((List.range info.colorFormats.length).flatMap fun c =>
    barrierToTransferDst .color (colors.getD c Image.null).image ::
    (if 1 < info.sampleCount then
      [barrierToTransferDst .color (msaas.getD c Image.null).image] else []))
  ++ (if depthImg.image ≠ 0 then [barrierToTransferDst .depth depthImg.image] else [])

/-- The clear commands (lines 292-307). -/
def phaseClears (info : GBufferInitInfo) (colors msaas : List Image) (depthImg : Image) :
    List Cmd :=
  ((List.range info.colorFormats.length).flatMap fun c =>
    clearCmdColor (colors.getD c Image.null).image ::
    (if 1 < info.sampleCount then
      [clearCmdColor (msaas.getD c Image.null).image] else []))
  ++ (if depthImg.image ≠ 0 then [clearCmdDepth depthImg.image] else [])

/-- The phase-C barrier batch (lines 309-341): color images to shader-read,
MSAA images to color-attachment, depth to depth-stencil-attachment. -/
def phaseCBarriers (info : GBufferInitInfo) (colors msaas : List Image) (depthImg : Image) :
    List VkImageMemoryBarrier2 :=
  ((List.range info.colorFormats.length).flatMap fun c =>
    barrierColorFinal (colors.getD c Image.null).image ::
    (if 1 < info.sampleCount then
      [barrierMsaaFinal (msaas.getD c Image.null).image] else []))
  ++ (if depthImg.image ≠ 0 then [barrierDepthFinal depthImg.image] else [])

/-- The clear-and-transition block (lines 248-347): one batched barrier to
`TRANSFER_DST_OPTIMAL`, clears of every image, one batched barrier to the
final layouts, updating the tracked descriptor layouts along the way.  The
C++ loops index `m_res.gBufferColor[c]` and `m_res.gBufferColorMSAA[c]` for
`c < numColor`; both vectors have length `numColor` here, so the per-index
layout writes are rendered as maps over the lists. -/
def clearTransition (info : GBufferInitInfo) (st : BuildSt) : BuildSt :=
  let isMsaa := 1 < info.sampleCount
  let colors := st.res.gBufferColor
  let msaas := st.res.gBufferColorMSAA
  let depthImg := st.res.gBufferDepth
  let colors' := colors.map (imageWithLayout · .shaderReadOnlyOptimal)
  let msaas' := if isMsaa then msaas.map (imageWithLayout · .colorAttachmentOptimal) else msaas
  let depth' := if depthImg.image ≠ 0 then imageWithLayout depthImg .depthStencilAttachmentOptimal
    else depthImg
  { st with
    res := { st.res with gBufferColor := colors', gBufferColorMSAA := msaas', gBufferDepth := depth' }
    events := st.events ++ [Event.cmd (Cmd.pipelineBarrier2 (phaseABarriers info colors msaas depthImg))]
      ++ (phaseClears info colors msaas depthImg).map Event.cmd
      ++ [Event.cmd (Cmd.pipelineBarrier2 (phaseCBarriers info colors msaas depthImg))] }

/-- The single-binding layout used for the ImGui descriptor sets (line 355). -/
def uiBinding : VkDescriptorSetLayoutBinding :=
  { binding := 0, descriptorType := .combinedImageSampler, descriptorCount := 1
    stageFlags := .fragment }

/-- The ImGui descriptor-set section (lines 349-387), run when a descriptor
pool is configured: resize the set vector, create the shared layout, allocate
`numColor` sets from the pool, and write each set to point at the UI view,
the configured sampler, and the shader-read layout. -/
def descStep (env : Env) (info : GBufferInitInfo) (st : BuildSt) : VkResult × BuildSt :=
  let numColor := info.colorFormats.length
  let st0 : BuildSt :=
    { st with res := { st.res with uiDescriptorSets := listResize st.res.uiDescriptorSets numColor 0 } }
  let r1 := env.res st0.k
  let lay := env.h1 st0.k
  let st1 : BuildSt :=
    { st0 with k := st0.k + 1, events := st0.events ++ [Event.createDescriptorSetLayout lay uiBinding] }
  if r1 ≠ VK_SUCCESS then (r1, st1) else
  let st2 : BuildSt := { st1 with descLayout := lay }
  let layouts := List.replicate numColor lay
  let r2 := env.res st2.k
  let sets := (List.range numColor).map (env.hs st2.k)
  let st3 : BuildSt :=
    { st2 with
      k := st2.k + 1,
      events := st2.events ++ [Event.allocateDescriptorSets info.descriptorPool layouts sets] }
  if r2 ≠ VK_SUCCESS then (r2, st3) else
  let st4 : BuildSt := { st3 with res := { st3.res with uiDescriptorSets := sets } }
  let writes : List VkWriteDescriptorSet := (List.range numColor).map fun d =>
    { dstSet := st4.res.uiDescriptorSets.getD d 0, descriptorCount := 1
      descriptorType := .combinedImageSampler, sampler := info.imageSampler
      imageView := st4.res.uiImageViews.getD d 0, imageLayout := .shaderReadOnlyOptimal }
  (VK_SUCCESS, { st4 with events := st4.events ++ [Event.updateDescriptorSets writes] })

/-- The vectors resized at the top of `initResources` (lines 169-173) and the
initial build state. -/
def initStart (info : GBufferInitInfo) (res0 : GBufferResources) (descLayout0 : Handle) : BuildSt :=
  let isMsaa := 1 < info.sampleCount
  let numColor := info.colorFormats.length
  { res := { res0 with
      gBufferColor := listResize res0.gBufferColor numColor Image.null
      uiImageViews := listResize res0.uiImageViews numColor 0
      gBufferColorMSAA := if isMsaa then listResize res0.gBufferColorMSAA numColor Image.null
        else res0.gBufferColorMSAA }
    descLayout := descLayout0, k := 0, events := [] }

/-- After the color loop: the depth step (lines 223-246) when a depth format
is configured, propagating an earlier failure. -/
def initStage2 (env : Env) (info : GBufferInitInfo) (size : VkExtent2D)
    (p : VkResult × BuildSt) : VkResult × BuildSt :=
  if p.1 ≠ VK_SUCCESS then p
  else if info.depthFormat ≠ VK_FORMAT_UNDEFINED then depthStep env info size p.2
  else (VK_SUCCESS, p.2)

/-- After the depth step: the clear-and-transition block (lines 248-347) and
the descriptor-set section (lines 349-387), propagating an earlier failure. -/
def initStage3 (env : Env) (info : GBufferInitInfo) (p2 : VkResult × BuildSt) :
    VkResult × BuildSt :=
  if p2.1 ≠ VK_SUCCESS then p2
  else
    let st := clearTransition info p2.2
    if info.descriptorPool ≠ 0 then descStep env info st else (VK_SUCCESS, st)

/-- `GBuffer::initResources` (lines 160-390), acting on the current `m_res`
and `m_descLayout`; returns the `VkResult` and the final build state (whose
trace holds the recorded commands and creation calls). -/
def initResources (env : Env) (info : GBufferInitInfo) (size : VkExtent2D)
    (res0 : GBufferResources) (descLayout0 : Handle) : VkResult × BuildSt :=
  initStage3 env info (initStage2 env info size
    (colorLoop env info size 0 info.colorFormats (initStart info res0 descLayout0)))

/-- `GBuffer::deinitResources` (lines 392-431): a no-op without an allocator;
otherwise free the descriptor sets and layout (when a pool is configured and
sets exist), destroy every color, MSAA and depth image, and every UI view,
clearing the containers. -/
def deinitResources (gb : GBuffer) : GBuffer × List Event :=
  match gb.m_info.allocator with
  | none => (gb, [])
  | some _device =>
    let freeSets := gb.m_info.descriptorPool ≠ 0 ∧ gb.m_res.uiDescriptorSets ≠ []
    let evs1 : List Event := if freeSets then
        [Event.freeDescriptorSets gb.m_info.descriptorPool gb.m_res.uiDescriptorSets,
         Event.destroyDescriptorSetLayout gb.m_descLayout]
      else []
    let sets' : List Handle := if freeSets then [] else gb.m_res.uiDescriptorSets
    let layout' : Handle := if freeSets then 0 else gb.m_descLayout
    let evs2 := gb.m_res.gBufferColor.map fun bc => Event.destroyImage bc.image
    let evs3 := gb.m_res.gBufferColorMSAA.map fun bc => Event.destroyImage bc.image
    let evs4 : List Event := if gb.m_res.gBufferDepth.image ≠ 0 then
        [Event.destroyImage gb.m_res.gBufferDepth.image] else []
    let depth' : Image := if gb.m_res.gBufferDepth.image ≠ 0 then Image.null else gb.m_res.gBufferDepth
    let evs5 := gb.m_res.uiImageViews.map fun v => Event.destroyImageView v
    ({ gb with
        m_res := { gBufferColor := [], gBufferColorMSAA := [], gBufferDepth := depth'
                   uiImageViews := [], uiDescriptorSets := sets' }
        m_descLayout := layout' },
      evs1 ++ evs2 ++ evs3 ++ evs4 ++ evs5)

/-- `GBuffer::init` (lines 54-58): store the creation info. -/
def init (gb : GBuffer) (createInfo : GBufferInitInfo) : GBuffer :=
  { gb with m_info := createInfo }

/-- `GBuffer::deinit` (lines 60-68): tear down the resources, then reset every
member to its value-initialized state (so the final state is the empty state
regardless of what teardown left behind). -/
def deinit (gb : GBuffer) : GBuffer × List Event :=
  (GBuffer.empty, (deinitResources gb).2)

/-- `GBuffer::update(cmd, newSize, newSampleCount)` (lines 70-82): no-op when
size and sample count are unchanged; otherwise wait for the device to idle,
tear the bundle down, store the new size and sample count, and rebuild.
A null allocator on the rebuild path dereferences null in the C++ (asserted
precondition); the model reads device `0` in that case. -/
def update (env : Env) (gb : GBuffer) (newSize : VkExtent2D) (newSampleCount : Nat) :
    VkResult × GBuffer × List Event :=
  if newSize.width = gb.m_size.width ∧ newSize.height = gb.m_size.height
      ∧ newSampleCount = gb.m_info.sampleCount then
    (VK_SUCCESS, gb, [])
  else
    let device := gb.m_info.allocator.getD 0
    let p := deinitResources gb
    let gb2 : GBuffer :=
      { p.1 with m_size := newSize, m_info := { p.1.m_info with sampleCount := newSampleCount } }
    let q := initResources env gb2.m_info newSize gb2.m_res gb2.m_descLayout
    (q.1, { gb2 with m_res := q.2.res, m_descLayout := q.2.descLayout },
      Event.deviceWaitIdle device :: p.2 ++ q.2.events)

/-- The two-argument overload `update(cmd, newSize)` (lines 84-87). -/
def update2 (env : Env) (gb : GBuffer) (newSize : VkExtent2D) : VkResult × GBuffer × List Event :=
  update env gb newSize gb.m_info.sampleCount

/-- Move assignment (lines 36-47) over an object store `σ : Nat → GBuffer`
(addresses → objects): self-assignment is a no-op, otherwise all four members
are swapped between destination `i` and source `j`. -/
def moveAssign (σ : Nat → GBuffer) (i j : Nat) : Nat → GBuffer :=
  if i = j then σ
  else fun a => if a = i then σ j else if a = j then σ i else σ a

/-- Move construction (lines 27-34): the freshly constructed destination (all
members value-initialized) swaps its members with the source; returns
(destination, moved-from source). -/
def moveCtor (other : GBuffer) : GBuffer × GBuffer := (other, GBuffer.empty)

/-- `getDescriptorSet` (lines 89-92); out-of-range indexing is UB in C++,
modelled as the null handle. -/
def getDescriptorSet (gb : GBuffer) (i : Nat) : Handle := gb.m_res.uiDescriptorSets.getD i 0

def getSize (gb : GBuffer) : VkExtent2D := gb.m_size

def getColorImage (gb : GBuffer) (i : Nat) : Handle := (gb.m_res.gBufferColor.getD i Image.null).image

def getColorMSAAImage (gb : GBuffer) (i : Nat) : Handle :=
  (gb.m_res.gBufferColorMSAA.getD i Image.null).image

def getDepthImage (gb : GBuffer) : Handle := gb.m_res.gBufferDepth.image

def getColorImageView (gb : GBuffer) (i : Nat) : Handle :=
  (gb.m_res.gBufferColor.getD i Image.null).descriptor.imageView

/-- `getRenderImageView` (lines 119-126). -/
def getRenderImageView (gb : GBuffer) (i : Nat) : Handle :=
  if 1 < gb.m_info.sampleCount ∧ gb.m_res.gBufferColorMSAA ≠ [] then
    (gb.m_res.gBufferColorMSAA.getD i Image.null).descriptor.imageView
  else
    (gb.m_res.gBufferColor.getD i Image.null).descriptor.imageView

def getDescriptorImageInfo (gb : GBuffer) (i : Nat) : VkDescriptorImageInfo :=
  (gb.m_res.gBufferColor.getD i Image.null).descriptor

def getDepthImageView (gb : GBuffer) : Handle := gb.m_res.gBufferDepth.descriptor.imageView

def getColorFormat (gb : GBuffer) (i : Nat) : VkFormat := gb.m_info.colorFormats.getD i 0

def getDepthFormat (gb : GBuffer) : VkFormat := gb.m_info.depthFormat

def getSampleCount (gb : GBuffer) : Nat := gb.m_info.sampleCount

/-- `getAspectRatio` (lines 153-158).  The C++ divides the two sizes as
`float`s; the division is modelled exactly over ℚ. -/
def getAspectRatio (gb : GBuffer) : ℚ :=
  if gb.m_size.height = 0 then 1
  else (gb.m_size.width : ℚ) / (gb.m_size.height : ℚ)

/-- A sample all-succeeding oracle with distinct nonzero handles. -/
def envOk : Env :=
  { res := fun _ => VK_SUCCESS, h1 := fun k => 2 * k + 1, h2 := fun k => 2 * k + 2
    hs := fun k i => 100 + 10 * k + i }

/-- A sample oracle whose very first fallible call fails with `-2`
(`VK_ERROR_OUT_OF_DEVICE_MEMORY`). -/
def envBad : Env := { envOk with res := fun _ => (-2 : Int) }

/-- A sample configuration: two color formats, a depth format, sample count 1,
a sampler, and a descriptor pool. -/
def cfgW : GBufferInitInfo :=
  { allocator := some 7, colorFormats := [10, 11], depthFormat := 5
    sampleCount := 1, imageSampler := 42, descriptorPool := 9 }

/-- The sample configuration stored into a fresh manager. -/
def gbW : GBuffer := init GBuffer.empty cfgW

/-- One routine extending the trace of another with construction events
only. -/
def eventsExtend (base l : List Event) : Prop :=
  ∀ e ∈ l, e ∈ base ∨ e.isBuild = true

/-- The color entry written at slot `c` by a fully successful color-loop
iteration whose first fallible call sits at position `k`. -/
def colorEntryAt (env : Env) (info : GBufferInitInfo) (fmt : VkFormat) (k : Nat) : Image :=
  { image := env.h1 k
    descriptor := { sampler := info.imageSampler, imageView := env.h2 k, imageLayout := .undefined }
    format := fmt }

/-- The MSAA entry written by a successful iteration whose MSAA `createImage`
call sits at position `k`. -/
def msaaEntryAt (env : Env) (fmt : VkFormat) (k : Nat) : Image :=
  { image := env.h1 k
    descriptor := { sampler := 0, imageView := env.h2 k, imageLayout := .undefined }
    format := fmt }

/-- The depth entry written by a successful depth step at call position `k`. -/
def depthEntryAt (env : Env) (info : GBufferInitInfo) (k : Nat) : Image :=
  { image := env.h1 k
    descriptor := { sampler := 0, imageView := env.h2 k, imageLayout := .undefined }
    format := info.depthFormat }

/-- The events of one successful color-loop iteration starting at call
position `k`. -/
def colorStepEvents (env : Env) (info : GBufferInitInfo) (size : VkExtent2D)
    (fmt : VkFormat) (k : Nat) : List Event :=
  [Event.allocCreateImage (env.h1 k) (env.h2 k) (colorImageInfo size fmt) (colorViewInfo fmt),
   Event.createImageView (env.h1 (k + 1)) (uiViewInfo fmt (env.h1 k))]
  ++ (if 1 < info.sampleCount then
      [Event.allocCreateImage (env.h1 (k + 2)) (env.h2 (k + 2)) (msaaImageInfo info size fmt)
        (uiViewInfo fmt (env.h1 k))]
    else [])

/-- The state transformer of one successful color-loop iteration. -/
def stepSpec (env : Env) (info : GBufferInitInfo) (size : VkExtent2D) (c : Nat)
    (fmt : VkFormat) (st : BuildSt) : BuildSt :=
  { st with
    res := { st.res with
      gBufferColor := st.res.gBufferColor.set c (colorEntryAt env info fmt st.k)
      uiImageViews := st.res.uiImageViews.set c (env.h1 (st.k + 1))
      gBufferColorMSAA := if 1 < info.sampleCount then
          st.res.gBufferColorMSAA.set c (msaaEntryAt env fmt (st.k + 2))
        else st.res.gBufferColorMSAA }
    k := st.k + cpc info
    events := st.events ++ colorStepEvents env info size fmt st.k }

/-- The state transformer of a fully successful color loop. -/
def loopSpec (env : Env) (info : GBufferInitInfo) (size : VkExtent2D) :
    Nat → List VkFormat → BuildSt → BuildSt
  | _, [], st => st
  | c, fmt :: rest, st =>
    loopSpec env info size (c + 1) rest (stepSpec env info size c fmt st)

/-- The events of a fully successful color loop starting at call position
`k`. -/
def loopEvents (env : Env) (info : GBufferInitInfo) (size : VkExtent2D) :
    List VkFormat → Nat → List Event
  | [], _ => []
  | fmt :: rest, k =>
    colorStepEvents env info size fmt k ++ loopEvents env info size rest (k + cpc info)

/-- The descriptor sets produced by a successful allocation call at position
`k + 1` (the layout call sits at `k`). -/
def descSetsAt (env : Env) (info : GBufferInitInfo) (k : Nat) : List Handle :=
  (List.range info.colorFormats.length).map (env.hs (k + 1))

/-- The descriptor writes of a successful descriptor step at call position
`k`, given the UI view vector. -/
def descWritesAt (env : Env) (info : GBufferInitInfo) (k : Nat) (uiViews : List Handle) :
    List VkWriteDescriptorSet :=
  (List.range info.colorFormats.length).map fun d =>
    { dstSet := (descSetsAt env info k).getD d 0, descriptorCount := 1
      descriptorType := .combinedImageSampler, sampler := info.imageSampler
      imageView := uiViews.getD d 0, imageLayout := .shaderReadOnlyOptimal }

/-- The events of a successful descriptor step at call position `k`. -/
def descEventsAt (env : Env) (info : GBufferInitInfo) (k : Nat) (uiViews : List Handle) :
    List Event :=
  [Event.createDescriptorSetLayout (env.h1 k) uiBinding,
   Event.allocateDescriptorSets info.descriptorPool
     (List.replicate info.colorFormats.length (env.h1 k)) (descSetsAt env info k),
   Event.updateDescriptorSets (descWritesAt env info k uiViews)]

/-- Stage 1 of a fully successful `initResources` run: the color loop on the
resized vectors. -/
def sbStage1 (env : Env) (info : GBufferInitInfo) (size : VkExtent2D)
    (res0 : GBufferResources) (d0 : Handle) : BuildSt :=
  loopSpec env info size 0 info.colorFormats (initStart info res0 d0)

/-- Stage 2: the depth creation, when configured. -/
def sbStage2 (env : Env) (info : GBufferInitInfo) (size : VkExtent2D)
    (res0 : GBufferResources) (d0 : Handle) : BuildSt :=
  let st1 := sbStage1 env info size res0 d0
  if info.depthFormat ≠ VK_FORMAT_UNDEFINED then
    { st1 with
      res := { st1.res with gBufferDepth := depthEntryAt env info st1.k }
      k := st1.k + 1
      events := st1.events ++ [Event.allocCreateImage (env.h1 st1.k) (env.h2 st1.k)
        (depthImageInfo info size) (depthViewInfo info)] }
  else st1

/-- Stage 3: the clear-and-transition block. -/
def sbStage3 (env : Env) (info : GBufferInitInfo) (size : VkExtent2D)
    (res0 : GBufferResources) (d0 : Handle) : BuildSt :=
  clearTransition info (sbStage2 env info size res0 d0)

/-- The build state produced by a fully successful `initResources` run. -/
def successBuild (env : Env) (info : GBufferInitInfo) (size : VkExtent2D)
    (res0 : GBufferResources) (d0 : Handle) : BuildSt :=
  let st3 := sbStage3 env info size res0 d0
  if info.descriptorPool ≠ 0 then
    { st3 with
      res := { st3.res with uiDescriptorSets := descSetsAt env info st3.k }
      descLayout := env.h1 st3.k
      k := st3.k + 2
      events := st3.events ++ descEventsAt env info st3.k st3.res.uiImageViews }
  else st3

/-- A value-initialized `VkWriteDescriptorSet`, used as `getD` default. -/
def wNull : VkWriteDescriptorSet :=
  { dstSet := 0, descriptorCount := 0, descriptorType := .combinedImageSampler
    sampler := 0, imageView := 0, imageLayout := .undefined }

end nvvk

open nvvk

/-- C10: the aspect-ratio accessor returns exactly 1 when the stored height is
zero, and the stored width divided by the stored height when the height is
positive. -/
theorem C10_aspect_ratio (gb : GBuffer) :
    (gb.m_size.height = 0 → getAspectRatio gb = 1) ∧
    (0 < gb.m_size.height →
      getAspectRatio gb = (gb.m_size.width : ℚ) / (gb.m_size.height : ℚ)) := by
  constructor
  · intro h
    simp [getAspectRatio, h]
  · intro h
    rw [getAspectRatio, if_neg (by omega)]

theorem C10_aspect_ratio_witness :
    getAspectRatio { GBuffer.empty with m_size := ⟨800, 600⟩ } = (800 : ℚ) / 600 ∧
    getAspectRatio { GBuffer.empty with m_size := ⟨800, 0⟩ } = 1 :=
  ⟨(C10_aspect_ratio _).2 (by decide), (C10_aspect_ratio _).1 rfl⟩

/-- Helper: the no-op path of `update`. -/
theorem update_same_eq (env : Env) (gb : GBuffer) (s : VkExtent2D) (sc : Nat)
    (hw : s.width = gb.m_size.width) (hh : s.height = gb.m_size.height)
    (hsc : sc = gb.m_info.sampleCount) :
    update env gb s sc = (VK_SUCCESS, gb, []) := by
  simp [update, hw, hh, hsc]

/-- Helper: on the rebuild path, `update` stores the new size and sample count
unconditionally (before/independently of the construction result). -/
theorem update_ne_stores (env : Env) (gb : GBuffer) (s : VkExtent2D) (sc : Nat)
    (hne : ¬(s.width = gb.m_size.width ∧ s.height = gb.m_size.height
      ∧ sc = gb.m_info.sampleCount)) :
    (update env gb s sc).2.1.m_size = s ∧
    (update env gb s sc).2.1.m_info.sampleCount = sc := by
  constructor <;> simp [update, if_neg hne]

/-- C2: calling `update` with the currently stored width, height and sample
count returns `VK_SUCCESS` immediately, leaves the state unchanged, and emits
no event at all (no recorded command, no device wait, no teardown). -/
theorem C2_update_noop (env : Env) (gb : GBuffer) (s : VkExtent2D) (sc : Nat)
    (hw : s.width = gb.m_size.width) (hh : s.height = gb.m_size.height)
    (hsc : sc = gb.m_info.sampleCount) :
    update env gb s sc = (VK_SUCCESS, gb, []) :=
  update_same_eq env gb s sc hw hh hsc

theorem C2_update_noop_witness :
    update envOk gbW ⟨0, 0⟩ 1 = (VK_SUCCESS, gbW, []) :=
  C2_update_noop envOk gbW ⟨0, 0⟩ 1 rfl rfl rfl

/-- C5: on the rebuild path `update` stores the requested size and sample
count before construction, so after a failed `update` the stored values equal
the failed request's, and an immediately repeated `update` with the same
arguments (under any oracle) takes the no-op path: success, state unchanged,
no events, hence no teardown and no rebuild. -/
theorem C5_failed_update_then_noop (env env2 : Env) (gb : GBuffer) (s : VkExtent2D) (sc : Nat)
    (hne : ¬(s.width = gb.m_size.width ∧ s.height = gb.m_size.height
      ∧ sc = gb.m_info.sampleCount))
    (hfail : (update env gb s sc).1 ≠ VK_SUCCESS) :
    (update env gb s sc).2.1.m_size = s ∧
    (update env gb s sc).2.1.m_info.sampleCount = sc ∧
    update env2 (update env gb s sc).2.1 s sc =
      (VK_SUCCESS, (update env gb s sc).2.1, []) := by
  obtain ⟨h1, h2⟩ := update_ne_stores env gb s sc hne
  exact ⟨h1, h2, update_same_eq env2 _ s sc (by rw [h1]) (by rw [h1]) (by rw [h2])⟩

theorem C5_failed_update_then_noop_witness :
    (update envBad gbW ⟨800, 600⟩ 1).2.1.m_size = ⟨800, 600⟩ ∧
    (update envBad gbW ⟨800, 600⟩ 1).2.1.m_info.sampleCount = 1 ∧
    update envOk (update envBad gbW ⟨800, 600⟩ 1).2.1 ⟨800, 600⟩ 1 =
      (VK_SUCCESS, (update envBad gbW ⟨800, 600⟩ 1).2.1, []) :=
  C5_failed_update_then_noop envBad envOk gbW ⟨800, 600⟩ 1 (by decide) (by decide)

/-- C8: a move (construction, or assignment between distinct objects) whose
destination is in the deinited state transfers all four members (resource
bundle, size, configuration, descriptor-set layout) from the source to the
destination, leaves the moved-from source in the deinited state, leaves every
other object untouched, and self-move-assignment changes nothing. -/
theorem C8_move_semantics (σ : Nat → GBuffer) (i j : Nat) (hij : i ≠ j)
    (hd : σ i = GBuffer.empty) (src : GBuffer) :
    moveAssign σ i j i = σ j ∧
    moveAssign σ i j j = GBuffer.empty ∧
    (∀ a, a ≠ i → a ≠ j → moveAssign σ i j a = σ a) ∧
    moveAssign σ i i = σ ∧
    moveCtor src = (src, GBuffer.empty) := by
  unfold moveAssign moveCtor
  refine ⟨?_, ?_, ?_, ?_, rfl⟩
  · simp [hij]
  · simp [hij, hij.symm, hd]
  · intro a ha hb
    simp [hij, ha, hb]
  · simp

theorem C8_move_semantics_witness :
    moveAssign (fun a => if a = 1 then gbW else GBuffer.empty) 0 1 0 = gbW ∧
    moveAssign (fun a => if a = 1 then gbW else GBuffer.empty) 0 1 1 = GBuffer.empty ∧
    (∀ a, a ≠ 0 → a ≠ 1 →
      moveAssign (fun a => if a = 1 then gbW else GBuffer.empty) 0 1 a =
        (if a = 1 then gbW else GBuffer.empty)) ∧
    moveAssign (fun a => if a = 1 then gbW else GBuffer.empty) 0 0 =
      (fun a => if a = 1 then gbW else GBuffer.empty) ∧
    moveCtor gbW = (gbW, GBuffer.empty) :=
  C8_move_semantics (fun a => if a = 1 then gbW else GBuffer.empty) 0 1
    (by decide) (by simp) gbW

/-- C9: `init` → `update(A)` → `update(B)` → `deinit` ends in exactly the
freshly-constructed empty state (for any configuration, any sizes, any
oracles), and `deinit` is idempotent: a second `deinit` is a complete no-op
(empty state, no teardown events), since teardown does nothing without an
allocator. -/
theorem C9_round_trip (e1 e2 : Env) (cfg : GBufferInitInfo) (A B : VkExtent2D) (gb : GBuffer) :
    (deinit (update2 e2 (update2 e1 (init GBuffer.empty cfg) A).2.1 B).2.1).1 = GBuffer.empty ∧
    deinit (deinit gb).1 = (GBuffer.empty, []) :=
  ⟨rfl, rfl⟩

/-- Helper: `deinitResources` does not touch the configuration. -/
theorem deinitResources_info (gb : GBuffer) : (deinitResources gb).1.m_info = gb.m_info := by
  rcases h : gb.m_info.allocator with _ | dev <;> simp [deinitResources, h]

/-- Helper: every event emitted by `deinitResources` is a teardown event. -/
theorem deinitResources_teardown (gb : GBuffer) :
    ∀ e ∈ (deinitResources gb).2, e.isTeardown = true := by
  rcases h : gb.m_info.allocator with _ | dev
  · simp [deinitResources, h]
  · simp only [deinitResources, h]
    refine List.forall_mem_append.mpr ⟨List.forall_mem_append.mpr ⟨List.forall_mem_append.mpr
      ⟨List.forall_mem_append.mpr ⟨?_, ?_⟩, ?_⟩, ?_⟩, ?_⟩
    · split_ifs <;> simp [Event.isTeardown]
    · intro x hx
      rcases List.mem_map.mp hx with ⟨a, _, rfl⟩
      rfl
    · intro x hx
      rcases List.mem_map.mp hx with ⟨a, _, rfl⟩
      rfl
    · split_ifs <;> simp [Event.isTeardown]
    · intro x hx
      rcases List.mem_map.mp hx with ⟨a, _, rfl⟩
      rfl

theorem eventsExtend_refl (l : List Event) : eventsExtend l l := fun e he => Or.inl he

theorem eventsExtend_trans {a b c : List Event} (h1 : eventsExtend a b)
    (h2 : eventsExtend b c) : eventsExtend a c := fun e he =>
  (h2 e he).elim (fun hb => h1 e hb) Or.inr

/-- Helper: every event appended by one color-loop iteration is a
construction event. -/
theorem colorStep_events (env : Env) (info : GBufferInitInfo) (size : VkExtent2D)
    (c : Nat) (fmt : VkFormat) (st : BuildSt) :
    eventsExtend st.events (colorStep env info size c fmt st).2.events := by
  intro e he
  simp only [colorStep] at he
  split_ifs at he <;>
    simp only [List.append_assoc, List.singleton_append, List.cons_append, List.nil_append,
      List.mem_append, List.mem_cons, List.not_mem_nil, or_false] at he <;>
    (rcases he with he | he
     · exact Or.inl he
     · refine Or.inr ?_
       first
         | (rcases he with rfl | rfl | rfl <;> rfl)
         | (rcases he with rfl | rfl <;> rfl)
         | (rcases he with rfl; rfl)
         | (subst he; rfl))

/-- Helper: every event appended by the color loop is a construction event. -/
theorem colorLoop_events (env : Env) (info : GBufferInitInfo) (size : VkExtent2D) :
    ∀ (fmts : List VkFormat) (c : Nat) (st : BuildSt),
      eventsExtend st.events (colorLoop env info size c fmts st).2.events := by
  intro fmts
  induction fmts with
  | nil => intro c st e he; exact Or.inl he
  | cons f rest ih =>
    intro c st
    simp only [colorLoop]
    by_cases h : (colorStep env info size c f st).1 = VK_SUCCESS
    · rw [if_pos h]
      exact eventsExtend_trans (colorStep_events env info size c f st) (ih (c + 1) _)
    · rw [if_neg h]
      exact colorStep_events env info size c f st

/-- Helper: every event appended by the depth step is a construction event. -/
theorem depthStep_events (env : Env) (info : GBufferInitInfo) (size : VkExtent2D) (st : BuildSt) :
    eventsExtend st.events (depthStep env info size st).2.events := by
  intro e he
  simp only [depthStep] at he
  split_ifs at he <;>
    simp only [List.mem_append, List.mem_singleton] at he <;>
    (rcases he with he | rfl
     · exact Or.inl he
     · exact Or.inr rfl)

/-- Helper: every event appended by the clear-and-transition block is a
recorded command, hence a construction event. -/
theorem clearTransition_events (info : GBufferInitInfo) (st : BuildSt) :
    eventsExtend st.events (clearTransition info st).events := by
  intro e he
  simp only [clearTransition, List.append_assoc, List.mem_append, List.mem_singleton,
    List.mem_map] at he
  rcases he with he | rfl | ⟨x, _, rfl⟩ | rfl
  · exact Or.inl he
  · exact Or.inr rfl
  · exact Or.inr rfl
  · exact Or.inr rfl

/-- Helper: every event appended by the descriptor-set step is a construction
event. -/
theorem descStep_events (env : Env) (info : GBufferInitInfo) (st : BuildSt) :
    eventsExtend st.events (descStep env info st).2.events := by
  intro e he
  simp only [descStep] at he
  split_ifs at he <;>
    simp only [List.append_assoc, List.singleton_append, List.cons_append, List.nil_append,
      List.mem_append, List.mem_cons, List.not_mem_nil, or_false] at he <;>
    (rcases he with he | he
     · exact Or.inl he
     · refine Or.inr ?_
       first
         | (rcases he with rfl | rfl | rfl <;> rfl)
         | (rcases he with rfl | rfl <;> rfl)
         | (rcases he with rfl; rfl)
         | (subst he; rfl))

/-- Helper: the depth stage only appends construction events. -/
theorem initStage2_events (env : Env) (info : GBufferInitInfo) (size : VkExtent2D)
    (p : VkResult × BuildSt) :
    eventsExtend p.2.events (initStage2 env info size p).2.events := by
  simp only [initStage2]
  split_ifs
  · exact eventsExtend_refl _
  · exact depthStep_events env info size _
  · exact eventsExtend_refl _

/-- Helper: the clear/descriptor stage only appends construction events. -/
theorem initStage3_events (env : Env) (info : GBufferInitInfo) (p2 : VkResult × BuildSt) :
    eventsExtend p2.2.events (initStage3 env info p2).2.events := by
  simp only [initStage3]
  split_ifs
  · exact eventsExtend_refl _
  · exact eventsExtend_trans (clearTransition_events info _) (descStep_events env info _)
  · exact clearTransition_events info _

/-- Helper: every event emitted by `initResources` is a construction event:
bundle construction performs no teardown (in particular, no rollback). -/
theorem initResources_events_build (env : Env) (info : GBufferInitInfo) (size : VkExtent2D)
    (res0 : GBufferResources) (d0 : Handle) :
    ∀ e ∈ (initResources env info size res0 d0).2.events, e.isBuild = true := by
  have key : eventsExtend (initStart info res0 d0).events
      (initResources env info size res0 d0).2.events :=
    eventsExtend_trans
      (eventsExtend_trans (colorLoop_events env info size info.colorFormats 0 _)
        (initStage2_events env info size _))
      (initStage3_events env info _)
  intro e he
  rcases key e he with h | h
  · exact absurd h (List.not_mem_nil e)
  · exact h

/-- C6: on the rebuild path (size or sample count differs) with an allocator
configured, the emitted effects are exactly: first the blocking device-idle
wait on the allocator's device, then the teardown of the existing bundle
(only teardown events), then the recording of the new bundle's construction
at the new size and sample count (only construction events) — so the wait
precedes all teardown and creation, and teardown precedes all creation. -/
theorem C6_rebuild_order (env : Env) (gb : GBuffer) (s : VkExtent2D) (sc : Nat) (dev : Handle)
    (halloc : gb.m_info.allocator = some dev)
    (hne : ¬(s.width = gb.m_size.width ∧ s.height = gb.m_size.height
      ∧ sc = gb.m_info.sampleCount)) :
    (update env gb s sc).2.2 =
      Event.deviceWaitIdle dev ::
        ((deinitResources gb).2 ++
          (initResources env { gb.m_info with sampleCount := sc } s
            (deinitResources gb).1.m_res (deinitResources gb).1.m_descLayout).2.events) ∧
    (∀ e ∈ (deinitResources gb).2, e.isTeardown = true) ∧
    (∀ e ∈ (initResources env { gb.m_info with sampleCount := sc } s
        (deinitResources gb).1.m_res (deinitResources gb).1.m_descLayout).2.events,
      e.isBuild = true) := by
  refine ⟨?_, deinitResources_teardown gb, initResources_events_build env _ s _ _⟩
  simp only [update, if_neg hne, halloc, deinitResources_info, Option.getD_some,
    List.cons_append]

/-- Helper: under an all-succeeding oracle, one color-loop iteration computes
`stepSpec`. -/
theorem colorStep_success (env : Env) (info : GBufferInitInfo) (size : VkExtent2D)
    (c : Nat) (fmt : VkFormat) (st : BuildSt) (henv : ∀ k, env.res k = VK_SUCCESS) :
    colorStep env info size c fmt st = (VK_SUCCESS, stepSpec env info size c fmt st) := by
  by_cases hm : 1 < info.sampleCount <;>
    simp [colorStep, stepSpec, colorStepEvents, colorEntryAt, msaaEntryAt, cpc, hm, henv,
      List.set_set, List.append_assoc]

/-- Helper: under an all-succeeding oracle, the color loop computes
`loopSpec`. -/
theorem colorLoop_success (env : Env) (info : GBufferInitInfo) (size : VkExtent2D)
    (henv : ∀ k, env.res k = VK_SUCCESS) :
    ∀ (fmts : List VkFormat) (c : Nat) (st : BuildSt),
      colorLoop env info size c fmts st = (VK_SUCCESS, loopSpec env info size c fmts st) := by
  intro fmts
  induction fmts with
  | nil => intro c st; rfl
  | cons f rest ih =>
    intro c st
    simp only [colorLoop, loopSpec, colorStep_success env info size c f st henv]
    exact ih (c + 1) _

/-- Helper: `loopSpec` leaves the call counter at `st.k` plus the per-item
call count. -/
theorem loopSpec_k (env : Env) (info : GBufferInitInfo) (size : VkExtent2D) :
    ∀ (fmts : List VkFormat) (c : Nat) (st : BuildSt),
      (loopSpec env info size c fmts st).k = st.k + fmts.length * cpc info := by
  intro fmts
  induction fmts with
  | nil => intro c st; simp [loopSpec]
  | cons f rest ih =>
    intro c st
    simp only [loopSpec, ih (c + 1), stepSpec, List.length_cons]
    ring

/-- Helper: `loopSpec` preserves the lengths of the three per-color vectors,
and does not touch the depth image, the descriptor sets, or the layout. -/
theorem loopSpec_frame (env : Env) (info : GBufferInitInfo) (size : VkExtent2D) :
    ∀ (fmts : List VkFormat) (c : Nat) (st : BuildSt),
      (loopSpec env info size c fmts st).res.gBufferColor.length
          = st.res.gBufferColor.length ∧
      (loopSpec env info size c fmts st).res.uiImageViews.length
          = st.res.uiImageViews.length ∧
      (loopSpec env info size c fmts st).res.gBufferColorMSAA.length
          = st.res.gBufferColorMSAA.length ∧
      (loopSpec env info size c fmts st).res.gBufferDepth = st.res.gBufferDepth ∧
      (loopSpec env info size c fmts st).res.uiDescriptorSets = st.res.uiDescriptorSets ∧
      (loopSpec env info size c fmts st).descLayout = st.descLayout := by
  intro fmts
  induction fmts with
  | nil => intro c st; simp [loopSpec]
  | cons f rest ih =>
    intro c st
    obtain ⟨h1, h2, h3, h4, h5, h6⟩ := ih (c + 1) (stepSpec env info size c f st)
    have hs1 : (stepSpec env info size c f st).res.gBufferColor.length
        = st.res.gBufferColor.length := by
      simp [stepSpec, List.length_set]
    have hs2 : (stepSpec env info size c f st).res.uiImageViews.length
        = st.res.uiImageViews.length := by
      simp [stepSpec, List.length_set]
    have hs3 : (stepSpec env info size c f st).res.gBufferColorMSAA.length
        = st.res.gBufferColorMSAA.length := by
      simp only [stepSpec]
      split_ifs <;> simp [List.length_set]
    exact ⟨by simp only [loopSpec]; exact h1.trans hs1,
      by simp only [loopSpec]; exact h2.trans hs2,
      by simp only [loopSpec]; exact h3.trans hs3,
      by simp only [loopSpec]; exact h4,
      by simp only [loopSpec]; exact h5,
      by simp only [loopSpec]; exact h6⟩

/-- Helper: `loopSpec` appends exactly `loopEvents`. -/
theorem loopSpec_events (env : Env) (info : GBufferInitInfo) (size : VkExtent2D) :
    ∀ (fmts : List VkFormat) (c : Nat) (st : BuildSt),
      (loopSpec env info size c fmts st).events
        = st.events ++ loopEvents env info size fmts st.k := by
  intro fmts
  induction fmts with
  | nil => intro c st; simp [loopSpec, loopEvents]
  | cons f rest ih =>
    intro c st
    simp only [loopSpec, ih (c + 1), stepSpec, loopEvents, List.append_assoc]

/-- Helper: one successful iteration preserves vector lengths. -/
theorem stepSpec_color_length (env : Env) (info : GBufferInitInfo) (size : VkExtent2D)
    (c : Nat) (fmt : VkFormat) (st : BuildSt) :
    (stepSpec env info size c fmt st).res.gBufferColor.length
      = st.res.gBufferColor.length := by
  simp [stepSpec, List.length_set]

theorem stepSpec_ui_length (env : Env) (info : GBufferInitInfo) (size : VkExtent2D)
    (c : Nat) (fmt : VkFormat) (st : BuildSt) :
    (stepSpec env info size c fmt st).res.uiImageViews.length
      = st.res.uiImageViews.length := by
  simp [stepSpec, List.length_set]

theorem stepSpec_msaa_length (env : Env) (info : GBufferInitInfo) (size : VkExtent2D)
    (c : Nat) (fmt : VkFormat) (st : BuildSt) :
    (stepSpec env info size c fmt st).res.gBufferColorMSAA.length
      = st.res.gBufferColorMSAA.length := by
  simp only [stepSpec]
  split_ifs <;> simp [List.length_set]

/-- Helper: the loop never touches slots below its starting index. -/
theorem loopSpec_preserve_lt (env : Env) (info : GBufferInitInfo) (size : VkExtent2D) :
    ∀ (fmts : List VkFormat) (c : Nat) (st : BuildSt) (idx : Nat), idx < c →
      (loopSpec env info size c fmts st).res.gBufferColor.getD idx Image.null
          = st.res.gBufferColor.getD idx Image.null ∧
      (loopSpec env info size c fmts st).res.uiImageViews.getD idx 0
          = st.res.uiImageViews.getD idx 0 ∧
      (loopSpec env info size c fmts st).res.gBufferColorMSAA.getD idx Image.null
          = st.res.gBufferColorMSAA.getD idx Image.null := by
  intro fmts
  induction fmts with
  | nil => intro c st idx _; exact ⟨rfl, rfl, rfl⟩
  | cons f rest ih =>
    intro c st idx hidx
    obtain ⟨h1, h2, h3⟩ := ih (c + 1) (stepSpec env info size c f st) idx (by omega)
    have hne : c ≠ idx := by omega
    refine ⟨?_, ?_, ?_⟩ <;>
      (simp only [loopSpec, h1, h2, h3]
       simp only [stepSpec])
    · simp [List.getD_eq_getElem?_getD, List.getElem?_set_ne hne]
    · simp [List.getD_eq_getElem?_getD, List.getElem?_set_ne hne]
    · split_ifs <;> simp [List.getD_eq_getElem?_getD, List.getElem?_set_ne hne]

/-- Helper: the color entry left at slot `c + t` by a successful loop. -/
theorem loopSpec_color_getD (env : Env) (info : GBufferInitInfo) (size : VkExtent2D) :
    ∀ (fmts : List VkFormat) (c : Nat) (st : BuildSt) (t : Nat), t < fmts.length →
      c + fmts.length ≤ st.res.gBufferColor.length →
      (loopSpec env info size c fmts st).res.gBufferColor.getD (c + t) Image.null
        = colorEntryAt env info (fmts.getD t 0) (st.k + t * cpc info) := by
  intro fmts
  induction fmts with
  | nil => intro c st t ht _; simp at ht
  | cons f rest ih =>
    intro c st t ht hlen
    rcases t with _ | t'
    · have hc : c < st.res.gBufferColor.length := by simp at hlen; omega
      have hlow := (loopSpec_preserve_lt env info size rest (c + 1)
        (stepSpec env info size c f st) c (by omega)).1
      simp only [loopSpec, Nat.add_zero, hlow]
      simp only [stepSpec]
      simp [List.getD_eq_getElem?_getD, List.getElem?_set_self, hc]
    · have harith : (stepSpec env info size c f st).k + t' * cpc info
          = st.k + (t' + 1) * cpc info := by
        simp only [stepSpec]
        ring
      have hlen' : (c + 1) + rest.length
          ≤ (stepSpec env info size c f st).res.gBufferColor.length := by
        rw [stepSpec_color_length]
        simp at hlen
        omega
      have := ih (c + 1) (stepSpec env info size c f st) t' (by simp at ht; omega) hlen'
      simp only [loopSpec]
      rw [show c + (t' + 1) = (c + 1) + t' by omega, this, harith]
      simp

/-- Helper: the UI view handle left at slot `c + t` by a successful loop. -/
theorem loopSpec_ui_getD (env : Env) (info : GBufferInitInfo) (size : VkExtent2D) :
    ∀ (fmts : List VkFormat) (c : Nat) (st : BuildSt) (t : Nat), t < fmts.length →
      c + fmts.length ≤ st.res.uiImageViews.length →
      (loopSpec env info size c fmts st).res.uiImageViews.getD (c + t) 0
        = env.h1 (st.k + t * cpc info + 1) := by
  intro fmts
  induction fmts with
  | nil => intro c st t ht _; simp at ht
  | cons f rest ih =>
    intro c st t ht hlen
    rcases t with _ | t'
    · have hc : c < st.res.uiImageViews.length := by simp at hlen; omega
      have hlow := (loopSpec_preserve_lt env info size rest (c + 1)
        (stepSpec env info size c f st) c (by omega)).2.1
      simp only [loopSpec, Nat.add_zero, hlow]
      simp only [stepSpec]
      simp [List.getD_eq_getElem?_getD, List.getElem?_set_self, hc]
    · have harith : (stepSpec env info size c f st).k + t' * cpc info + 1
          = st.k + (t' + 1) * cpc info + 1 := by
        simp only [stepSpec]
        ring
      have hlen' : (c + 1) + rest.length
          ≤ (stepSpec env info size c f st).res.uiImageViews.length := by
        rw [stepSpec_ui_length]
        simp at hlen
        omega
      have := ih (c + 1) (stepSpec env info size c f st) t' (by simp at ht; omega) hlen'
      simp only [loopSpec]
      rw [show c + (t' + 1) = (c + 1) + t' by omega, this, harith]

/-- Helper: with multisampling on, the MSAA entry left at slot `c + t`. -/
theorem loopSpec_msaa_getD (env : Env) (info : GBufferInitInfo) (size : VkExtent2D)
    (hm : 1 < info.sampleCount) :
    ∀ (fmts : List VkFormat) (c : Nat) (st : BuildSt) (t : Nat), t < fmts.length →
      c + fmts.length ≤ st.res.gBufferColorMSAA.length →
      (loopSpec env info size c fmts st).res.gBufferColorMSAA.getD (c + t) Image.null
        = msaaEntryAt env (fmts.getD t 0) (st.k + t * cpc info + 2) := by
  intro fmts
  induction fmts with
  | nil => intro c st t ht _; simp at ht
  | cons f rest ih =>
    intro c st t ht hlen
    rcases t with _ | t'
    · have hc : c < st.res.gBufferColorMSAA.length := by simp at hlen; omega
      have hlow := (loopSpec_preserve_lt env info size rest (c + 1)
        (stepSpec env info size c f st) c (by omega)).2.2
      simp only [loopSpec, Nat.add_zero, hlow]
      simp only [stepSpec, if_pos hm]
      simp [List.getD_eq_getElem?_getD, List.getElem?_set_self, hc]
    · have harith : (stepSpec env info size c f st).k + t' * cpc info + 2
          = st.k + (t' + 1) * cpc info + 2 := by
        simp only [stepSpec]
        ring
      have hlen' : (c + 1) + rest.length
          ≤ (stepSpec env info size c f st).res.gBufferColorMSAA.length := by
        rw [stepSpec_msaa_length]
        simp at hlen
        omega
      have := ih (c + 1) (stepSpec env info size c f st) t' (by simp at ht; omega) hlen'
      simp only [loopSpec]
      rw [show c + (t' + 1) = (c + 1) + t' by omega, this, harith]
      simp

/-- Helper: the color loop records no command into the command buffer. -/
theorem loopEvents_no_cmd (env : Env) (info : GBufferInitInfo) (size : VkExtent2D) :
    ∀ (fmts : List VkFormat) (k : Nat), cmdsOf (loopEvents env info size fmts k) = [] := by
  intro fmts
  induction fmts with
  | nil => intro k; rfl
  | cons f rest ih =>
    intro k
    simp only [loopEvents, cmdsOf, List.filterMap_append]
    rw [show List.filterMap _ (loopEvents env info size rest (k + cpc info))
      = cmdsOf (loopEvents env info size rest (k + cpc info)) from rfl, ih]
    simp only [colorStepEvents]
    split_ifs <;> rfl

/-- Helper: the loop's trace holds, for each index `t`, the creation of the
UI view over the color image of index `t`, with the alpha swizzle forced to
one. -/
theorem loopEvents_ui_mem (env : Env) (info : GBufferInitInfo) (size : VkExtent2D) :
    ∀ (fmts : List VkFormat) (k : Nat) (t : Nat), t < fmts.length →
      Event.createImageView (env.h1 (k + t * cpc info + 1))
          (uiViewInfo (fmts.getD t 0) (env.h1 (k + t * cpc info)))
        ∈ loopEvents env info size fmts k := by
  intro fmts
  induction fmts with
  | nil => intro k t ht; simp at ht
  | cons f rest ih =>
    intro k t ht
    rcases t with _ | t'
    · simp only [loopEvents, Nat.zero_mul, Nat.add_zero, List.getD_cons_zero]
      apply List.mem_append_left
      simp [colorStepEvents]
    · have harith1 : k + (t' + 1) * cpc info + 1 = (k + cpc info) + t' * cpc info + 1 := by ring
      have harith2 : k + (t' + 1) * cpc info = (k + cpc info) + t' * cpc info := by ring
      simp only [loopEvents, List.getD_cons_succ, harith1, harith2]
      exact List.mem_append_right _ (ih (k + cpc info) t' (by simp at ht; omega))

/-- Helper: under an all-succeeding oracle, the depth step writes the depth
entry and records its creation call. -/
theorem depthStep_success (env : Env) (info : GBufferInitInfo) (size : VkExtent2D)
    (st : BuildSt) (henv : ∀ k, env.res k = VK_SUCCESS) :
    depthStep env info size st =
      (VK_SUCCESS,
        { st with
          res := { st.res with gBufferDepth := depthEntryAt env info st.k }
          k := st.k + 1
          events := st.events ++ [Event.allocCreateImage (env.h1 st.k) (env.h2 st.k)
            (depthImageInfo info size) (depthViewInfo info)] }) := by
  simp [depthStep, henv, depthEntryAt]

/-- Helper: under an all-succeeding oracle, the descriptor step allocates the
`N` sets from one shared layout and records the three descriptor calls. -/
theorem descStep_success (env : Env) (info : GBufferInitInfo) (st : BuildSt)
    (henv : ∀ k, env.res k = VK_SUCCESS) :
    descStep env info st =
      (VK_SUCCESS,
        { st with
          res := { st.res with uiDescriptorSets := descSetsAt env info st.k }
          descLayout := env.h1 st.k
          k := st.k + 2
          events := st.events ++ descEventsAt env info st.k st.res.uiImageViews }) := by
  simp [descStep, henv, descSetsAt, descEventsAt, descWritesAt, List.append_assoc]

/-- Helper: under an all-succeeding oracle, `initResources` succeeds and
produces exactly `successBuild`. -/
theorem initResources_success (env : Env) (info : GBufferInitInfo) (size : VkExtent2D)
    (res0 : GBufferResources) (d0 : Handle) (henv : ∀ k, env.res k = VK_SUCCESS) :
    initResources env info size res0 d0 =
      (VK_SUCCESS, successBuild env info size res0 d0) := by
  have hloop := colorLoop_success env info size henv info.colorFormats 0 (initStart info res0 d0)
  have h2 : initStage2 env info size (VK_SUCCESS, sbStage1 env info size res0 d0)
      = (VK_SUCCESS, sbStage2 env info size res0 d0) := by
    by_cases hd : info.depthFormat ≠ VK_FORMAT_UNDEFINED
    · simp only [initStage2, sbStage2, if_pos hd,
        depthStep_success env info size _ henv]
      simp
    · simp [initStage2, sbStage2, hd]
  have h3 : initStage3 env info (VK_SUCCESS, sbStage2 env info size res0 d0)
      = (VK_SUCCESS, successBuild env info size res0 d0) := by
    by_cases hp : info.descriptorPool ≠ 0
    · simp only [initStage3, successBuild, sbStage3, if_pos hp,
        descStep_success env info _ henv]
      simp
    · simp [initStage3, successBuild, sbStage3, hp]
  have h1 : colorLoop env info size 0 info.colorFormats (initStart info res0 d0)
      = (VK_SUCCESS, sbStage1 env info size res0 d0) := hloop
  rw [initResources, h1, h2, h3]

/-- Helper: a `getD` through a `map`, in range. -/
theorem getD_map_lt {α β : Type} (f : α → β) (l : List α) (i : Nat) (hi : i < l.length)
    (d : β) (d' : α) : (l.map f).getD i d = f (l.getD i d') := by
  rw [List.getD_eq_getElem?_getD, List.getD_eq_getElem?_getD, List.getElem?_map,
    List.getElem?_eq_getElem hi]
  simp

/-- Helper: mapping a function of `getD` over the index range recovers a map
over the list. -/
theorem range_map_getD {α β : Type} (l : List α) (h : α → β) (d : α) :
    (List.range l.length).map (fun c => h (l.getD c d)) = l.map h := by
  apply List.ext_getElem
  · simp
  · intro i h1 h2
    have hi : i < l.length := by simpa using h2
    simp [List.getElem_map, List.getElem_range, List.getD_eq_getElem?_getD,
      List.getElem?_eq_getElem hi]

/-- Helper: interleaving an optional second element per item is a permutation
of the two straight maps. -/
theorem flatMap_cons_ite_perm {α β : Type} (l : List α) (f g : α → β) (P : Prop) [Decidable P] :
    (l.flatMap fun x => f x :: (if P then [g x] else [])).Perm
      (l.map f ++ if P then l.map g else []) := by
  induction l with
  | nil => simp
  | cons x xs ih =>
    by_cases hP : P
    · simp only [List.flatMap_cons, if_pos hP, List.map_cons, List.cons_append,
        List.singleton_append]
      refine List.Perm.cons _ ?_
      refine List.Perm.trans (List.Perm.cons _ ?_) List.perm_middle.symm
      simpa [if_pos hP] using ih
    · simp only [List.flatMap_cons, if_neg hP, List.map_cons, List.nil_append,
        List.cons_append]
      refine List.Perm.cons _ ?_
      simpa [if_neg hP] using ih

/-- Helper: the common shape of the three phase batches is a permutation of
per-kind maps over the actual vectors. -/
theorem phase_perm {β : Type} (info : GBufferInitInfo) (colors msaas : List Image)
    (F G : Handle → β) (D : List β)
    (hc : colors.length = info.colorFormats.length)
    (hmm : if 1 < info.sampleCount then msaas.length = info.colorFormats.length
      else msaas = []) :
    (((List.range info.colorFormats.length).flatMap fun c =>
        F (colors.getD c Image.null).image ::
        (if 1 < info.sampleCount then [G (msaas.getD c Image.null).image] else []))
      ++ D).Perm
      (colors.map (fun im => F im.image) ++ msaas.map (fun im => G im.image) ++ D) := by
  refine List.Perm.append_right D ?_
  refine List.Perm.trans (flatMap_cons_ite_perm _ _ _ _) ?_
  have hcol : (List.range info.colorFormats.length).map
      (fun c => F (colors.getD c Image.null).image) = colors.map (fun im => F im.image) := by
    rw [← hc, range_map_getD colors (fun im => F im.image) Image.null]
  by_cases hm : 1 < info.sampleCount
  · have hmlen : msaas.length = info.colorFormats.length := by simpa [hm] using hmm
    have hms : (List.range info.colorFormats.length).map
        (fun c => G (msaas.getD c Image.null).image) = msaas.map (fun im => G im.image) := by
      rw [← hmlen, range_map_getD msaas (fun im => G im.image) Image.null]
    rw [if_pos hm, hcol, hms]
  · have hmnil : msaas = [] := by simpa [hm] using hmm
    rw [if_neg hm, hcol, hmnil]
    simp

theorem listResize_length {α : Type} (l : List α) (n : Nat) (d : α) :
    (listResize l n d).length = n := by
  simp [listResize]
  omega

theorem sbStage1_color_length (env : Env) (info : GBufferInitInfo) (size : VkExtent2D)
    (res0 : GBufferResources) (d0 : Handle) :
    (sbStage1 env info size res0 d0).res.gBufferColor.length = info.colorFormats.length := by
  rw [sbStage1, (loopSpec_frame env info size info.colorFormats 0 _).1]
  exact listResize_length _ _ _

theorem sbStage1_ui_length (env : Env) (info : GBufferInitInfo) (size : VkExtent2D)
    (res0 : GBufferResources) (d0 : Handle) :
    (sbStage1 env info size res0 d0).res.uiImageViews.length = info.colorFormats.length := by
  rw [sbStage1, (loopSpec_frame env info size info.colorFormats 0 _).2.1]
  exact listResize_length _ _ _

theorem sbStage1_k (env : Env) (info : GBufferInitInfo) (size : VkExtent2D)
    (res0 : GBufferResources) (d0 : Handle) :
    (sbStage1 env info size res0 d0).k = info.colorFormats.length * cpc info := by
  rw [sbStage1, loopSpec_k]
  simp [initStart]

theorem sbStage1_color_getD (env : Env) (info : GBufferInitInfo) (size : VkExtent2D)
    (res0 : GBufferResources) (d0 : Handle) (t : Nat) (ht : t < info.colorFormats.length) :
    (sbStage1 env info size res0 d0).res.gBufferColor.getD t Image.null
      = colorEntryAt env info (info.colorFormats.getD t 0) (t * cpc info) := by
  have := loopSpec_color_getD env info size info.colorFormats 0 (initStart info res0 d0) t ht
    (by rw [show (initStart info res0 d0).res.gBufferColor
          = listResize res0.gBufferColor info.colorFormats.length Image.null from rfl,
        listResize_length]
        omega)
  simpa [sbStage1, initStart] using this

theorem sbStage1_ui_getD (env : Env) (info : GBufferInitInfo) (size : VkExtent2D)
    (res0 : GBufferResources) (d0 : Handle) (t : Nat) (ht : t < info.colorFormats.length) :
    (sbStage1 env info size res0 d0).res.uiImageViews.getD t 0
      = env.h1 (t * cpc info + 1) := by
  have := loopSpec_ui_getD env info size info.colorFormats 0 (initStart info res0 d0) t ht
    (by rw [show (initStart info res0 d0).res.uiImageViews
          = listResize res0.uiImageViews info.colorFormats.length 0 from rfl,
        listResize_length]
        omega)
  simpa [sbStage1, initStart] using this

theorem sbStage1_msaa_length (env : Env) (info : GBufferInitInfo) (size : VkExtent2D)
    (res0 : GBufferResources) (d0 : Handle) (hm : 1 < info.sampleCount) :
    (sbStage1 env info size res0 d0).res.gBufferColorMSAA.length
      = info.colorFormats.length := by
  rw [sbStage1, (loopSpec_frame env info size info.colorFormats 0 _).2.2.1]
  show (if 1 < info.sampleCount then _ else res0.gBufferColorMSAA).length = _
  rw [if_pos hm, listResize_length]

theorem sbStage1_msaa_getD (env : Env) (info : GBufferInitInfo) (size : VkExtent2D)
    (res0 : GBufferResources) (d0 : Handle) (hm : 1 < info.sampleCount)
    (t : Nat) (ht : t < info.colorFormats.length) :
    (sbStage1 env info size res0 d0).res.gBufferColorMSAA.getD t Image.null
      = msaaEntryAt env (info.colorFormats.getD t 0) (t * cpc info + 2) := by
  have := loopSpec_msaa_getD env info size hm info.colorFormats 0 (initStart info res0 d0) t ht
    (by show 0 + info.colorFormats.length
          ≤ (if 1 < info.sampleCount then _ else res0.gBufferColorMSAA).length
        rw [if_pos hm, listResize_length]
        omega)
  simpa [sbStage1, initStart] using this

/-- Helper: without multisampling, the loop leaves the MSAA vector alone. -/
theorem loopSpec_msaa_id (env : Env) (info : GBufferInitInfo) (size : VkExtent2D)
    (hm : ¬1 < info.sampleCount) :
    ∀ (fmts : List VkFormat) (c : Nat) (st : BuildSt),
      (loopSpec env info size c fmts st).res.gBufferColorMSAA
        = st.res.gBufferColorMSAA := by
  intro fmts
  induction fmts with
  | nil => intro c st; rfl
  | cons f rest ih =>
    intro c st
    rw [loopSpec, ih (c + 1)]
    simp [stepSpec, hm]

theorem sbStage1_msaa_id (env : Env) (info : GBufferInitInfo) (size : VkExtent2D)
    (res0 : GBufferResources) (d0 : Handle) (hm : ¬1 < info.sampleCount) :
    (sbStage1 env info size res0 d0).res.gBufferColorMSAA = res0.gBufferColorMSAA := by
  rw [sbStage1, loopSpec_msaa_id env info size hm]
  show (if 1 < info.sampleCount then _ else res0.gBufferColorMSAA) = _
  rw [if_neg hm]

theorem sbStage1_depth (env : Env) (info : GBufferInitInfo) (size : VkExtent2D)
    (res0 : GBufferResources) (d0 : Handle) :
    (sbStage1 env info size res0 d0).res.gBufferDepth = res0.gBufferDepth := by
  rw [sbStage1, (loopSpec_frame env info size info.colorFormats 0 _).2.2.2.1]
  rfl

theorem sbStage1_sets (env : Env) (info : GBufferInitInfo) (size : VkExtent2D)
    (res0 : GBufferResources) (d0 : Handle) :
    (sbStage1 env info size res0 d0).res.uiDescriptorSets = res0.uiDescriptorSets := by
  rw [sbStage1, (loopSpec_frame env info size info.colorFormats 0 _).2.2.2.2.1]
  rfl

theorem sbStage1_descLayout (env : Env) (info : GBufferInitInfo) (size : VkExtent2D)
    (res0 : GBufferResources) (d0 : Handle) :
    (sbStage1 env info size res0 d0).descLayout = d0 := by
  rw [sbStage1, (loopSpec_frame env info size info.colorFormats 0 _).2.2.2.2.2]
  rfl

theorem sbStage1_events (env : Env) (info : GBufferInitInfo) (size : VkExtent2D)
    (res0 : GBufferResources) (d0 : Handle) :
    (sbStage1 env info size res0 d0).events
      = loopEvents env info size info.colorFormats 0 := by
  rw [sbStage1, loopSpec_events]
  rfl

theorem sbStage2_color (env : Env) (info : GBufferInitInfo) (size : VkExtent2D)
    (res0 : GBufferResources) (d0 : Handle) :
    (sbStage2 env info size res0 d0).res.gBufferColor
      = (sbStage1 env info size res0 d0).res.gBufferColor := by
  simp only [sbStage2]
  split_ifs <;> rfl

theorem sbStage2_msaa (env : Env) (info : GBufferInitInfo) (size : VkExtent2D)
    (res0 : GBufferResources) (d0 : Handle) :
    (sbStage2 env info size res0 d0).res.gBufferColorMSAA
      = (sbStage1 env info size res0 d0).res.gBufferColorMSAA := by
  simp only [sbStage2]
  split_ifs <;> rfl

theorem sbStage2_ui (env : Env) (info : GBufferInitInfo) (size : VkExtent2D)
    (res0 : GBufferResources) (d0 : Handle) :
    (sbStage2 env info size res0 d0).res.uiImageViews
      = (sbStage1 env info size res0 d0).res.uiImageViews := by
  simp only [sbStage2]
  split_ifs <;> rfl

theorem sbStage2_sets (env : Env) (info : GBufferInitInfo) (size : VkExtent2D)
    (res0 : GBufferResources) (d0 : Handle) :
    (sbStage2 env info size res0 d0).res.uiDescriptorSets = res0.uiDescriptorSets := by
  simp only [sbStage2]
  split_ifs <;> exact sbStage1_sets env info size res0 d0

theorem sbStage2_descLayout (env : Env) (info : GBufferInitInfo) (size : VkExtent2D)
    (res0 : GBufferResources) (d0 : Handle) :
    (sbStage2 env info size res0 d0).descLayout = d0 := by
  simp only [sbStage2]
  split_ifs <;> exact sbStage1_descLayout env info size res0 d0

theorem sbStage2_k (env : Env) (info : GBufferInitInfo) (size : VkExtent2D)
    (res0 : GBufferResources) (d0 : Handle) :
    (sbStage2 env info size res0 d0).k
      = info.colorFormats.length * cpc info
        + (if info.depthFormat ≠ VK_FORMAT_UNDEFINED then 1 else 0) := by
  simp only [sbStage2]
  split_ifs with hd <;> simp [sbStage1_k]

theorem sbStage2_depth_pos (env : Env) (info : GBufferInitInfo) (size : VkExtent2D)
    (res0 : GBufferResources) (d0 : Handle) (hd : info.depthFormat ≠ VK_FORMAT_UNDEFINED) :
    (sbStage2 env info size res0 d0).res.gBufferDepth
      = depthEntryAt env info (info.colorFormats.length * cpc info) := by
  simp only [sbStage2, if_pos hd]
  rw [sbStage1_k]

theorem sbStage2_depth_neg (env : Env) (info : GBufferInitInfo) (size : VkExtent2D)
    (res0 : GBufferResources) (d0 : Handle) (hd : ¬info.depthFormat ≠ VK_FORMAT_UNDEFINED) :
    (sbStage2 env info size res0 d0).res.gBufferDepth = res0.gBufferDepth := by
  simp only [sbStage2, if_neg hd]
  exact sbStage1_depth env info size res0 d0

theorem sbStage2_events (env : Env) (info : GBufferInitInfo) (size : VkExtent2D)
    (res0 : GBufferResources) (d0 : Handle) :
    (sbStage2 env info size res0 d0).events
      = loopEvents env info size info.colorFormats 0
        ++ (if info.depthFormat ≠ VK_FORMAT_UNDEFINED then
          [Event.allocCreateImage (env.h1 (info.colorFormats.length * cpc info))
            (env.h2 (info.colorFormats.length * cpc info))
            (depthImageInfo info size) (depthViewInfo info)] else []) := by
  simp only [sbStage2]
  split_ifs with hd
  · show (sbStage1 env info size res0 d0).events
        ++ [Event.allocCreateImage (env.h1 (sbStage1 env info size res0 d0).k)
          (env.h2 (sbStage1 env info size res0 d0).k)
          (depthImageInfo info size) (depthViewInfo info)] = _
    rw [sbStage1_events, sbStage1_k]
  · show (sbStage1 env info size res0 d0).events = _
    rw [sbStage1_events]
    simp

theorem sbStage3_color (env : Env) (info : GBufferInitInfo) (size : VkExtent2D)
    (res0 : GBufferResources) (d0 : Handle) :
    (sbStage3 env info size res0 d0).res.gBufferColor
      = (sbStage2 env info size res0 d0).res.gBufferColor.map
          (imageWithLayout · .shaderReadOnlyOptimal) := rfl

theorem sbStage3_msaa (env : Env) (info : GBufferInitInfo) (size : VkExtent2D)
    (res0 : GBufferResources) (d0 : Handle) :
    (sbStage3 env info size res0 d0).res.gBufferColorMSAA
      = (if 1 < info.sampleCount then
          (sbStage2 env info size res0 d0).res.gBufferColorMSAA.map
            (imageWithLayout · .colorAttachmentOptimal)
        else (sbStage2 env info size res0 d0).res.gBufferColorMSAA) := rfl

theorem sbStage3_depth (env : Env) (info : GBufferInitInfo) (size : VkExtent2D)
    (res0 : GBufferResources) (d0 : Handle) :
    (sbStage3 env info size res0 d0).res.gBufferDepth
      = (if (sbStage2 env info size res0 d0).res.gBufferDepth.image ≠ 0 then
          imageWithLayout (sbStage2 env info size res0 d0).res.gBufferDepth
            .depthStencilAttachmentOptimal
        else (sbStage2 env info size res0 d0).res.gBufferDepth) := rfl

theorem sbStage3_ui (env : Env) (info : GBufferInitInfo) (size : VkExtent2D)
    (res0 : GBufferResources) (d0 : Handle) :
    (sbStage3 env info size res0 d0).res.uiImageViews
      = (sbStage2 env info size res0 d0).res.uiImageViews := rfl

theorem sbStage3_sets (env : Env) (info : GBufferInitInfo) (size : VkExtent2D)
    (res0 : GBufferResources) (d0 : Handle) :
    (sbStage3 env info size res0 d0).res.uiDescriptorSets = res0.uiDescriptorSets :=
  sbStage2_sets env info size res0 d0

theorem sbStage3_descLayout (env : Env) (info : GBufferInitInfo) (size : VkExtent2D)
    (res0 : GBufferResources) (d0 : Handle) :
    (sbStage3 env info size res0 d0).descLayout = d0 :=
  sbStage2_descLayout env info size res0 d0

theorem sbStage3_k (env : Env) (info : GBufferInitInfo) (size : VkExtent2D)
    (res0 : GBufferResources) (d0 : Handle) :
    (sbStage3 env info size res0 d0).k
      = info.colorFormats.length * cpc info
        + (if info.depthFormat ≠ VK_FORMAT_UNDEFINED then 1 else 0) :=
  sbStage2_k env info size res0 d0

theorem sbStage3_events (env : Env) (info : GBufferInitInfo) (size : VkExtent2D)
    (res0 : GBufferResources) (d0 : Handle) :
    (sbStage3 env info size res0 d0).events
      = (sbStage2 env info size res0 d0).events
        ++ [Event.cmd (Cmd.pipelineBarrier2 (phaseABarriers info
            (sbStage2 env info size res0 d0).res.gBufferColor
            (sbStage2 env info size res0 d0).res.gBufferColorMSAA
            (sbStage2 env info size res0 d0).res.gBufferDepth))]
        ++ (phaseClears info
            (sbStage2 env info size res0 d0).res.gBufferColor
            (sbStage2 env info size res0 d0).res.gBufferColorMSAA
            (sbStage2 env info size res0 d0).res.gBufferDepth).map Event.cmd
        ++ [Event.cmd (Cmd.pipelineBarrier2 (phaseCBarriers info
            (sbStage2 env info size res0 d0).res.gBufferColor
            (sbStage2 env info size res0 d0).res.gBufferColorMSAA
            (sbStage2 env info size res0 d0).res.gBufferDepth))] := rfl

theorem successBuild_color (env : Env) (info : GBufferInitInfo) (size : VkExtent2D)
    (res0 : GBufferResources) (d0 : Handle) :
    (successBuild env info size res0 d0).res.gBufferColor
      = (sbStage3 env info size res0 d0).res.gBufferColor := by
  simp only [successBuild]
  split_ifs <;> rfl

theorem successBuild_msaa (env : Env) (info : GBufferInitInfo) (size : VkExtent2D)
    (res0 : GBufferResources) (d0 : Handle) :
    (successBuild env info size res0 d0).res.gBufferColorMSAA
      = (sbStage3 env info size res0 d0).res.gBufferColorMSAA := by
  simp only [successBuild]
  split_ifs <;> rfl

theorem successBuild_depth (env : Env) (info : GBufferInitInfo) (size : VkExtent2D)
    (res0 : GBufferResources) (d0 : Handle) :
    (successBuild env info size res0 d0).res.gBufferDepth
      = (sbStage3 env info size res0 d0).res.gBufferDepth := by
  simp only [successBuild]
  split_ifs <;> rfl

theorem successBuild_ui (env : Env) (info : GBufferInitInfo) (size : VkExtent2D)
    (res0 : GBufferResources) (d0 : Handle) :
    (successBuild env info size res0 d0).res.uiImageViews
      = (sbStage3 env info size res0 d0).res.uiImageViews := by
  simp only [successBuild]
  split_ifs <;> rfl

theorem successBuild_sets_pos (env : Env) (info : GBufferInitInfo) (size : VkExtent2D)
    (res0 : GBufferResources) (d0 : Handle) (hp : info.descriptorPool ≠ 0) :
    (successBuild env info size res0 d0).res.uiDescriptorSets
      = descSetsAt env info (info.colorFormats.length * cpc info
          + (if info.depthFormat ≠ VK_FORMAT_UNDEFINED then 1 else 0)) := by
  simp only [successBuild, if_pos hp]
  rw [sbStage3_k]

theorem successBuild_descLayout_pos (env : Env) (info : GBufferInitInfo) (size : VkExtent2D)
    (res0 : GBufferResources) (d0 : Handle) (hp : info.descriptorPool ≠ 0) :
    (successBuild env info size res0 d0).descLayout
      = env.h1 (info.colorFormats.length * cpc info
          + (if info.depthFormat ≠ VK_FORMAT_UNDEFINED then 1 else 0)) := by
  simp only [successBuild, if_pos hp]
  rw [sbStage3_k]

theorem successBuild_sets_neg (env : Env) (info : GBufferInitInfo) (size : VkExtent2D)
    (res0 : GBufferResources) (d0 : Handle) (hp : ¬info.descriptorPool ≠ 0) :
    (successBuild env info size res0 d0).res.uiDescriptorSets = res0.uiDescriptorSets := by
  simp only [successBuild, if_neg hp]
  exact sbStage3_sets env info size res0 d0

theorem successBuild_descLayout_neg (env : Env) (info : GBufferInitInfo) (size : VkExtent2D)
    (res0 : GBufferResources) (d0 : Handle) (hp : ¬info.descriptorPool ≠ 0) :
    (successBuild env info size res0 d0).descLayout = d0 := by
  simp only [successBuild, if_neg hp]
  exact sbStage3_descLayout env info size res0 d0

theorem successBuild_events (env : Env) (info : GBufferInitInfo) (size : VkExtent2D)
    (res0 : GBufferResources) (d0 : Handle) :
    (successBuild env info size res0 d0).events
      = (sbStage3 env info size res0 d0).events
        ++ (if info.descriptorPool ≠ 0 then
          descEventsAt env info (sbStage3 env info size res0 d0).k
            (sbStage3 env info size res0 d0).res.uiImageViews else []) := by
  simp only [successBuild]
  split_ifs <;> simp

/-- Helper: with an allocator present, teardown empties the bundle: all
vectors cleared and the depth handle null. -/
theorem deinitResources_res (gb : GBuffer) (dev : Handle)
    (halloc : gb.m_info.allocator = some dev) :
    (deinitResources gb).1.m_res.gBufferColor = [] ∧
    (deinitResources gb).1.m_res.gBufferColorMSAA = [] ∧
    (deinitResources gb).1.m_res.uiImageViews = [] ∧
    (deinitResources gb).1.m_res.gBufferDepth.image = 0 := by
  refine ⟨?_, ?_, ?_, ?_⟩ <;> simp only [deinitResources, halloc]
  · show (if gb.m_res.gBufferDepth.image ≠ 0 then Image.null else gb.m_res.gBufferDepth).image = 0
    split_ifs with h
    · rfl
    · exact not_not.mp h

/-- Helper: teardown leaves a null depth record when the prior state kept the
invariant that a null depth handle means a value-initialized record. -/
theorem deinitResources_depth_null (gb : GBuffer) (dev : Handle)
    (halloc : gb.m_info.allocator = some dev)
    (hv : gb.m_res.gBufferDepth.image = 0 → gb.m_res.gBufferDepth = Image.null) :
    (deinitResources gb).1.m_res.gBufferDepth = Image.null := by
  simp only [deinitResources, halloc]
  show (if gb.m_res.gBufferDepth.image ≠ 0 then Image.null else gb.m_res.gBufferDepth) = Image.null
  split_ifs with h
  · rfl
  · exact hv (not_not.mp h)

/-- Helper: teardown keeps the descriptor sets only when no pool is
configured (or none were allocated). -/
theorem deinitResources_sets (gb : GBuffer) (dev : Handle)
    (halloc : gb.m_info.allocator = some dev) :
    (deinitResources gb).1.m_res.uiDescriptorSets
      = (if gb.m_info.descriptorPool ≠ 0 ∧ gb.m_res.uiDescriptorSets ≠ [] then []
        else gb.m_res.uiDescriptorSets) := by
  simp only [deinitResources, halloc]

/-- Helper: the rebuild path of `update`, written as one equation. -/
theorem update_rebuild_eq (env : Env) (gb : GBuffer) (s : VkExtent2D) (sc : Nat)
    (hne : ¬(s.width = gb.m_size.width ∧ s.height = gb.m_size.height
      ∧ sc = gb.m_info.sampleCount)) :
    update env gb s sc =
      ((initResources env { gb.m_info with sampleCount := sc } s
          (deinitResources gb).1.m_res (deinitResources gb).1.m_descLayout).1,
        { m_res := (initResources env { gb.m_info with sampleCount := sc } s
            (deinitResources gb).1.m_res (deinitResources gb).1.m_descLayout).2.res
          m_size := s
          m_info := { gb.m_info with sampleCount := sc }
          m_descLayout := (initResources env { gb.m_info with sampleCount := sc } s
            (deinitResources gb).1.m_res (deinitResources gb).1.m_descLayout).2.descLayout },
        Event.deviceWaitIdle (gb.m_info.allocator.getD 0) ::
          ((deinitResources gb).2 ++ (initResources env { gb.m_info with sampleCount := sc } s
            (deinitResources gb).1.m_res (deinitResources gb).1.m_descLayout).2.events)) := by
  simp only [update, if_neg hne, deinitResources_info, List.cons_append]

/-- Helper: the rebuild path of `update` under an all-succeeding oracle. -/
theorem update_rebuild_success (env : Env) (gb : GBuffer) (s : VkExtent2D) (sc : Nat)
    (hne : ¬(s.width = gb.m_size.width ∧ s.height = gb.m_size.height
      ∧ sc = gb.m_info.sampleCount))
    (henv : ∀ k, env.res k = VK_SUCCESS) :
    update env gb s sc =
      (VK_SUCCESS,
        { m_res := (successBuild env { gb.m_info with sampleCount := sc } s
            (deinitResources gb).1.m_res (deinitResources gb).1.m_descLayout).res
          m_size := s
          m_info := { gb.m_info with sampleCount := sc }
          m_descLayout := (successBuild env { gb.m_info with sampleCount := sc } s
            (deinitResources gb).1.m_res (deinitResources gb).1.m_descLayout).descLayout },
        Event.deviceWaitIdle (gb.m_info.allocator.getD 0) ::
          ((deinitResources gb).2 ++ (successBuild env { gb.m_info with sampleCount := sc } s
            (deinitResources gb).1.m_res (deinitResources gb).1.m_descLayout).events)) := by
  rw [update_rebuild_eq env gb s sc hne,
    initResources_success env _ s _ _ henv]

/-- C3: after a successful rebuilding `update` on a manager with `N ≥ 1`
configured color formats (allocator present, oracle succeeding with non-null
handles, prior state keeping the null-depth invariant): exactly `N` color
images with per-index formats equal to the configured ones and non-null
image and view handles; exactly `N` MSAA shadows with the same per-index
formats iff the new sample count exceeds 1, and an empty MSAA vector
otherwise regardless of prior state; and a depth image/view iff the
configured depth format is not the undefined sentinel, the depth accessors
returning null handles when absent. -/
theorem C3_bundle_shape (env : Env) (gb : GBuffer) (s : VkExtent2D) (sc : Nat) (dev : Handle)
    (halloc : gb.m_info.allocator = some dev)
    (hne : ¬(s.width = gb.m_size.width ∧ s.height = gb.m_size.height
      ∧ sc = gb.m_info.sampleCount))
    (henv : ∀ k, env.res k = VK_SUCCESS)
    (hh1 : ∀ k, env.h1 k ≠ 0) (hh2 : ∀ k, env.h2 k ≠ 0)
    (hN : 1 ≤ gb.m_info.colorFormats.length)
    (hv : gb.m_res.gBufferDepth.image = 0 → gb.m_res.gBufferDepth = Image.null) :
    (update env gb s sc).1 = VK_SUCCESS ∧
    (update env gb s sc).2.1.m_res.gBufferColor.length = gb.m_info.colorFormats.length ∧
    (∀ t, t < gb.m_info.colorFormats.length →
      ((update env gb s sc).2.1.m_res.gBufferColor.getD t Image.null).format
          = gb.m_info.colorFormats.getD t 0 ∧
      getColorImage (update env gb s sc).2.1 t ≠ 0 ∧
      getColorImageView (update env gb s sc).2.1 t ≠ 0) ∧
    (1 < sc →
      (update env gb s sc).2.1.m_res.gBufferColorMSAA.length
          = gb.m_info.colorFormats.length ∧
      ∀ t, t < gb.m_info.colorFormats.length →
        ((update env gb s sc).2.1.m_res.gBufferColorMSAA.getD t Image.null).format
            = gb.m_info.colorFormats.getD t 0 ∧
        getColorMSAAImage (update env gb s sc).2.1 t ≠ 0) ∧
    (¬1 < sc → (update env gb s sc).2.1.m_res.gBufferColorMSAA = []) ∧
    (gb.m_info.depthFormat ≠ VK_FORMAT_UNDEFINED →
      getDepthImage (update env gb s sc).2.1 ≠ 0 ∧
      getDepthImageView (update env gb s sc).2.1 ≠ 0 ∧
      (update env gb s sc).2.1.m_res.gBufferDepth.format = gb.m_info.depthFormat) ∧
    (gb.m_info.depthFormat = VK_FORMAT_UNDEFINED →
      getDepthImage (update env gb s sc).2.1 = 0 ∧
      getDepthImageView (update env gb s sc).2.1 = 0) := by
  have hupd := update_rebuild_success env gb s sc hne henv
  have hr : (update env gb s sc).1 = VK_SUCCESS := by rw [hupd]
  have hres : (update env gb s sc).2.1.m_res
      = (successBuild env { gb.m_info with sampleCount := sc } s
          (deinitResources gb).1.m_res (deinitResources gb).1.m_descLayout).res := by
    rw [hupd]
  obtain ⟨hd1, hd2, hd3, hd4⟩ := deinitResources_res gb dev halloc
  have hNsame : ({ gb.m_info with sampleCount := sc } : GBufferInitInfo).colorFormats
      = gb.m_info.colorFormats := rfl
  have hcolor : (successBuild env { gb.m_info with sampleCount := sc } s
        (deinitResources gb).1.m_res (deinitResources gb).1.m_descLayout).res.gBufferColor
      = (sbStage1 env { gb.m_info with sampleCount := sc } s
          (deinitResources gb).1.m_res (deinitResources gb).1.m_descLayout).res.gBufferColor.map
          (imageWithLayout · .shaderReadOnlyOptimal) := by
    rw [successBuild_color, sbStage3_color, sbStage2_color]
  have hclen : (update env gb s sc).2.1.m_res.gBufferColor.length
      = gb.m_info.colorFormats.length := by
    rw [hres, hcolor, List.length_map, sbStage1_color_length]
  refine ⟨hr, hclen, ?_, ?_, ?_, ?_, ?_⟩
  · intro t ht
    have hgd : (update env gb s sc).2.1.m_res.gBufferColor.getD t Image.null
        = imageWithLayout (colorEntryAt env { gb.m_info with sampleCount := sc }
            (gb.m_info.colorFormats.getD t 0) (t * cpc { gb.m_info with sampleCount := sc }))
            .shaderReadOnlyOptimal := by
      rw [hres, hcolor, getD_map_lt _ _ t (by rw [sbStage1_color_length]; exact ht)
        Image.null Image.null, sbStage1_color_getD env { gb.m_info with sampleCount := sc } s _ _ t ht]
    refine ⟨?_, ?_, ?_⟩
    · rw [hgd]
      rfl
    · rw [getColorImage, hgd]
      exact hh1 _
    · rw [getColorImageView, hgd]
      exact hh2 _
  · intro hm
    have hm' : 1 < ({ gb.m_info with sampleCount := sc } : GBufferInitInfo).sampleCount := hm
    have hmsaa : (successBuild env { gb.m_info with sampleCount := sc } s
          (deinitResources gb).1.m_res (deinitResources gb).1.m_descLayout).res.gBufferColorMSAA
        = (sbStage1 env { gb.m_info with sampleCount := sc } s
            (deinitResources gb).1.m_res (deinitResources gb).1.m_descLayout).res.gBufferColorMSAA.map
            (imageWithLayout · .colorAttachmentOptimal) := by
      rw [successBuild_msaa, sbStage3_msaa, if_pos hm', sbStage2_msaa]
    have hmlen : (update env gb s sc).2.1.m_res.gBufferColorMSAA.length
        = gb.m_info.colorFormats.length := by
      rw [hres, hmsaa, List.length_map, sbStage1_msaa_length env { gb.m_info with sampleCount := sc } s _ _ hm']
    refine ⟨hmlen, ?_⟩
    intro t ht
    have hgd : (update env gb s sc).2.1.m_res.gBufferColorMSAA.getD t Image.null
        = imageWithLayout (msaaEntryAt env (gb.m_info.colorFormats.getD t 0)
            (t * cpc { gb.m_info with sampleCount := sc } + 2)) .colorAttachmentOptimal := by
      rw [hres, hmsaa, getD_map_lt _ _ t
        (by rw [sbStage1_msaa_length env { gb.m_info with sampleCount := sc } s _ _ hm']; exact ht) Image.null Image.null,
        sbStage1_msaa_getD env { gb.m_info with sampleCount := sc } s _ _ hm' t ht]
    constructor
    · rw [hgd]
      rfl
    · rw [getColorMSAAImage, hgd]
      exact hh1 _
  · intro hm
    have hm' : ¬1 < ({ gb.m_info with sampleCount := sc } : GBufferInitInfo).sampleCount := hm
    rw [hres, successBuild_msaa, sbStage3_msaa, if_neg hm', sbStage2_msaa,
      sbStage1_msaa_id env { gb.m_info with sampleCount := sc } s _ _ hm', hd2]
  · intro hdf
    have hdf' : ({ gb.m_info with sampleCount := sc } : GBufferInitInfo).depthFormat
        ≠ VK_FORMAT_UNDEFINED := hdf
    have hst2 := sbStage2_depth_pos env { gb.m_info with sampleCount := sc } s
      (deinitResources gb).1.m_res (deinitResources gb).1.m_descLayout hdf'
    have himg : (sbStage2 env { gb.m_info with sampleCount := sc } s
        (deinitResources gb).1.m_res (deinitResources gb).1.m_descLayout).res.gBufferDepth.image
        ≠ 0 := by
      rw [hst2]
      exact hh1 _
    have hdepth : (update env gb s sc).2.1.m_res.gBufferDepth
        = imageWithLayout (depthEntryAt env { gb.m_info with sampleCount := sc }
            (gb.m_info.colorFormats.length * cpc { gb.m_info with sampleCount := sc }))
            .depthStencilAttachmentOptimal := by
      rw [hres, successBuild_depth, sbStage3_depth, if_pos himg, hst2]
    refine ⟨?_, ?_, ?_⟩
    · rw [getDepthImage, hdepth]
      exact hh1 _
    · rw [getDepthImageView, hdepth]
      exact hh2 _
    · rw [hdepth]
      rfl
  · intro hdf
    have hdf' : ¬({ gb.m_info with sampleCount := sc } : GBufferInitInfo).depthFormat
        ≠ VK_FORMAT_UNDEFINED := by simpa using hdf
    have hnull := deinitResources_depth_null gb dev halloc hv
    have hst2 := sbStage2_depth_neg env { gb.m_info with sampleCount := sc } s
      (deinitResources gb).1.m_res (deinitResources gb).1.m_descLayout hdf'
    have himg : ¬(sbStage2 env { gb.m_info with sampleCount := sc } s
        (deinitResources gb).1.m_res (deinitResources gb).1.m_descLayout).res.gBufferDepth.image
        ≠ 0 := by
      rw [hst2, hnull]
      simp [Image.null]
    have hdepth : (update env gb s sc).2.1.m_res.gBufferDepth = Image.null := by
      rw [hres, successBuild_depth, sbStage3_depth, if_neg himg, hst2, hnull]
    constructor
    · rw [getDepthImage, hdepth]
      rfl
    · rw [getDepthImageView, hdepth]
      rfl

theorem C3_bundle_shape_witness :
    (update envOk gbW ⟨800, 600⟩ 1).1 = VK_SUCCESS ∧
    (update envOk gbW ⟨800, 600⟩ 1).2.1.m_res.gBufferColor.length
        = gbW.m_info.colorFormats.length ∧
    (∀ t, t < gbW.m_info.colorFormats.length →
      ((update envOk gbW ⟨800, 600⟩ 1).2.1.m_res.gBufferColor.getD t Image.null).format
          = gbW.m_info.colorFormats.getD t 0 ∧
      getColorImage (update envOk gbW ⟨800, 600⟩ 1).2.1 t ≠ 0 ∧
      getColorImageView (update envOk gbW ⟨800, 600⟩ 1).2.1 t ≠ 0) ∧
    (1 < 1 →
      (update envOk gbW ⟨800, 600⟩ 1).2.1.m_res.gBufferColorMSAA.length
          = gbW.m_info.colorFormats.length ∧
      ∀ t, t < gbW.m_info.colorFormats.length →
        ((update envOk gbW ⟨800, 600⟩ 1).2.1.m_res.gBufferColorMSAA.getD t Image.null).format
            = gbW.m_info.colorFormats.getD t 0 ∧
        getColorMSAAImage (update envOk gbW ⟨800, 600⟩ 1).2.1 t ≠ 0) ∧
    (¬1 < 1 → (update envOk gbW ⟨800, 600⟩ 1).2.1.m_res.gBufferColorMSAA = []) ∧
    (gbW.m_info.depthFormat ≠ VK_FORMAT_UNDEFINED →
      getDepthImage (update envOk gbW ⟨800, 600⟩ 1).2.1 ≠ 0 ∧
      getDepthImageView (update envOk gbW ⟨800, 600⟩ 1).2.1 ≠ 0 ∧
      (update envOk gbW ⟨800, 600⟩ 1).2.1.m_res.gBufferDepth.format
          = gbW.m_info.depthFormat) ∧
    (gbW.m_info.depthFormat = VK_FORMAT_UNDEFINED →
      getDepthImage (update envOk gbW ⟨800, 600⟩ 1).2.1 = 0 ∧
      getDepthImageView (update envOk gbW ⟨800, 600⟩ 1).2.1 = 0) :=
  C3_bundle_shape envOk gbW ⟨800, 600⟩ 1 7 rfl (by decide) (fun _ => rfl)
    (fun k => by show 2 * k + 1 ≠ 0; omega) (fun k => by show 2 * k + 2 ≠ 0; omega)
    (by decide) (fun _ => rfl)

/-- C7: after a successful rebuilding `update` (allocator present, oracle
succeeding): when a descriptor pool is configured, exactly `N` UI descriptor
sets exist, allocated from the pool with `N` copies of the single shared
fragment-stage combined-image-sampler layout, and one batched descriptor
write points each set at the corresponding UI image view with the configured
sampler in shader-read layout; when no pool is configured, zero descriptor
sets exist; and each UI image view was created over the identical image as
the corresponding color target with its alpha component swizzled to constant
one. -/
theorem C7_ui_descriptors (env : Env) (gb : GBuffer) (s : VkExtent2D) (sc : Nat) (dev : Handle)
    (halloc : gb.m_info.allocator = some dev)
    (hne : ¬(s.width = gb.m_size.width ∧ s.height = gb.m_size.height
      ∧ sc = gb.m_info.sampleCount))
    (henv : ∀ k, env.res k = VK_SUCCESS)
    (hvsets : gb.m_info.descriptorPool = 0 → gb.m_res.uiDescriptorSets = []) :
    (update env gb s sc).1 = VK_SUCCESS ∧
    (gb.m_info.descriptorPool ≠ 0 →
      (update env gb s sc).2.1.m_res.uiDescriptorSets.length
          = gb.m_info.colorFormats.length ∧
      Event.createDescriptorSetLayout (update env gb s sc).2.1.m_descLayout uiBinding
          ∈ (update env gb s sc).2.2 ∧
      Event.allocateDescriptorSets gb.m_info.descriptorPool
          (List.replicate gb.m_info.colorFormats.length (update env gb s sc).2.1.m_descLayout)
          (update env gb s sc).2.1.m_res.uiDescriptorSets
          ∈ (update env gb s sc).2.2 ∧
      (∃ writes, Event.updateDescriptorSets writes ∈ (update env gb s sc).2.2 ∧
        writes.length = gb.m_info.colorFormats.length ∧
        ∀ d, d < gb.m_info.colorFormats.length →
          writes.getD d wNull =
            { dstSet := getDescriptorSet (update env gb s sc).2.1 d
              descriptorCount := 1
              descriptorType := .combinedImageSampler
              sampler := gb.m_info.imageSampler
              imageView := (update env gb s sc).2.1.m_res.uiImageViews.getD d 0
              imageLayout := .shaderReadOnlyOptimal })) ∧
    (gb.m_info.descriptorPool = 0 →
      (update env gb s sc).2.1.m_res.uiDescriptorSets = []) ∧
    (update env gb s sc).2.1.m_res.uiImageViews.length = gb.m_info.colorFormats.length ∧
    (∀ c, c < gb.m_info.colorFormats.length →
      Event.createImageView ((update env gb s sc).2.1.m_res.uiImageViews.getD c 0)
        { image := getColorImage (update env gb s sc).2.1 c
          format := gb.m_info.colorFormats.getD c 0
          aspect := .color
          alphaSwizzleOne := true } ∈ (update env gb s sc).2.2) := by
  have hupd := update_rebuild_success env gb s sc hne henv
  have hr : (update env gb s sc).1 = VK_SUCCESS := by rw [hupd]
  have hres : (update env gb s sc).2.1.m_res
      = (successBuild env { gb.m_info with sampleCount := sc } s
          (deinitResources gb).1.m_res (deinitResources gb).1.m_descLayout).res := by
    rw [hupd]
  have hlayq : (update env gb s sc).2.1.m_descLayout
      = (successBuild env { gb.m_info with sampleCount := sc } s
          (deinitResources gb).1.m_res (deinitResources gb).1.m_descLayout).descLayout := by
    rw [hupd]
  have hevs : (update env gb s sc).2.2
      = Event.deviceWaitIdle (gb.m_info.allocator.getD 0) ::
          ((deinitResources gb).2 ++ (successBuild env { gb.m_info with sampleCount := sc } s
            (deinitResources gb).1.m_res (deinitResources gb).1.m_descLayout).events) := by
    rw [hupd]
  have hmemBuild : ∀ e, e ∈ (successBuild env { gb.m_info with sampleCount := sc } s
      (deinitResources gb).1.m_res (deinitResources gb).1.m_descLayout).events →
      e ∈ (update env gb s sc).2.2 := by
    intro e he
    rw [hevs]
    exact List.mem_cons_of_mem _ (List.mem_append_right _ he)
  have huiview : (update env gb s sc).2.1.m_res.uiImageViews
      = (sbStage1 env { gb.m_info with sampleCount := sc } s
          (deinitResources gb).1.m_res (deinitResources gb).1.m_descLayout).res.uiImageViews := by
    rw [hres, successBuild_ui, sbStage3_ui, sbStage2_ui]
  have huilen : (update env gb s sc).2.1.m_res.uiImageViews.length
      = gb.m_info.colorFormats.length := by
    rw [huiview, sbStage1_ui_length]
  refine ⟨hr, ?_, ?_, huilen, ?_⟩
  · intro hp
    have hp' : ({ gb.m_info with sampleCount := sc } : GBufferInitInfo).descriptorPool ≠ 0 := hp
    have hsets := successBuild_sets_pos env { gb.m_info with sampleCount := sc } s
      (deinitResources gb).1.m_res (deinitResources gb).1.m_descLayout hp'
    have hlay := successBuild_descLayout_pos env { gb.m_info with sampleCount := sc } s
      (deinitResources gb).1.m_res (deinitResources gb).1.m_descLayout hp'
    have hdescmem : ∀ e, e ∈ descEventsAt env { gb.m_info with sampleCount := sc }
        (sbStage3 env { gb.m_info with sampleCount := sc } s
          (deinitResources gb).1.m_res (deinitResources gb).1.m_descLayout).k
        (sbStage3 env { gb.m_info with sampleCount := sc } s
          (deinitResources gb).1.m_res (deinitResources gb).1.m_descLayout).res.uiImageViews →
        e ∈ (update env gb s sc).2.2 := by
      intro e he
      apply hmemBuild
      rw [successBuild_events, if_pos hp']
      exact List.mem_append_right _ he
    have hk3 := sbStage3_k env { gb.m_info with sampleCount := sc } s
      (deinitResources gb).1.m_res (deinitResources gb).1.m_descLayout
    have huiview3 : (sbStage3 env { gb.m_info with sampleCount := sc } s
        (deinitResources gb).1.m_res (deinitResources gb).1.m_descLayout).res.uiImageViews
        = (update env gb s sc).2.1.m_res.uiImageViews := by
      rw [huiview, sbStage3_ui, sbStage2_ui]
    refine ⟨?_, ?_, ?_, ?_⟩
    · rw [hres, hsets, descSetsAt, List.length_map, List.length_range]
    · rw [hlayq, hlay, ← hk3]
      exact hdescmem _ (by simp [descEventsAt])
    · have halle : Event.allocateDescriptorSets
          ({ gb.m_info with sampleCount := sc } : GBufferInitInfo).descriptorPool
          (List.replicate ({ gb.m_info with sampleCount := sc } : GBufferInitInfo).colorFormats.length
            (env.h1 (sbStage3 env { gb.m_info with sampleCount := sc } s
              (deinitResources gb).1.m_res (deinitResources gb).1.m_descLayout).k))
          (descSetsAt env { gb.m_info with sampleCount := sc }
            (sbStage3 env { gb.m_info with sampleCount := sc } s
              (deinitResources gb).1.m_res (deinitResources gb).1.m_descLayout).k)
          ∈ (update env gb s sc).2.2 := hdescmem _ (by simp [descEventsAt])
      rw [hlayq, hlay, ← hk3, hres, hsets, ← hk3]
      exact halle
    · refine ⟨descWritesAt env { gb.m_info with sampleCount := sc }
        (sbStage3 env { gb.m_info with sampleCount := sc } s
          (deinitResources gb).1.m_res (deinitResources gb).1.m_descLayout).k
        (sbStage3 env { gb.m_info with sampleCount := sc } s
          (deinitResources gb).1.m_res (deinitResources gb).1.m_descLayout).res.uiImageViews,
        hdescmem _ (by simp [descEventsAt]), ?_, ?_⟩
      · rw [descWritesAt, List.length_map, List.length_range]
      · intro d hd
        have hdr : d < (List.range
            ({ gb.m_info with sampleCount := sc } : GBufferInitInfo).colorFormats.length).length := by
          rw [List.length_range]
          exact hd
        rw [descWritesAt, getD_map_lt _ _ d hdr wNull 0]
        have hrd : (List.range ({ gb.m_info with sampleCount := sc } :
            GBufferInitInfo).colorFormats.length).getD d 0 = d := by
          simp [List.getD_eq_getElem?_getD, List.getElem?_range, hd]
        rw [hrd]
        have h1 : getDescriptorSet (update env gb s sc).2.1 d
            = (descSetsAt env { gb.m_info with sampleCount := sc }
              (sbStage3 env { gb.m_info with sampleCount := sc } s
                (deinitResources gb).1.m_res (deinitResources gb).1.m_descLayout).k).getD d 0 := by
          rw [getDescriptorSet, hres, hsets, ← hk3]
        have h2 : (update env gb s sc).2.1.m_res.uiImageViews.getD d 0
            = (sbStage3 env { gb.m_info with sampleCount := sc } s
              (deinitResources gb).1.m_res
              (deinitResources gb).1.m_descLayout).res.uiImageViews.getD d 0 := by
          rw [huiview3]
        rw [h1, h2]
  · intro hp
    have hp' : ¬({ gb.m_info with sampleCount := sc } : GBufferInitInfo).descriptorPool ≠ 0 := by
      simpa using hp
    rw [hres, successBuild_sets_neg env _ s _ _ hp', deinitResources_sets gb dev halloc,
      if_neg (by simp [hp]), hvsets hp]
  · intro c hc
    have hui := sbStage1_ui_getD env { gb.m_info with sampleCount := sc } s
      (deinitResources gb).1.m_res (deinitResources gb).1.m_descLayout c hc
    have hcolor : (update env gb s sc).2.1.m_res.gBufferColor
        = (sbStage1 env { gb.m_info with sampleCount := sc } s
            (deinitResources gb).1.m_res (deinitResources gb).1.m_descLayout).res.gBufferColor.map
            (imageWithLayout · .shaderReadOnlyOptimal) := by
      rw [hres, successBuild_color, sbStage3_color, sbStage2_color]
    have himg : getColorImage (update env gb s sc).2.1 c
        = env.h1 (c * cpc { gb.m_info with sampleCount := sc }) := by
      rw [getColorImage, hcolor, getD_map_lt _ _ c (by rw [sbStage1_color_length]; exact hc)
        Image.null Image.null,
        sbStage1_color_getD env { gb.m_info with sampleCount := sc } s _ _ c hc]
      rfl
    have hview : (update env gb s sc).2.1.m_res.uiImageViews.getD c 0
        = env.h1 (c * cpc { gb.m_info with sampleCount := sc } + 1) := by
      rw [huiview, hui]
    rw [himg, hview]
    have hmem := loopEvents_ui_mem env { gb.m_info with sampleCount := sc } s
      gb.m_info.colorFormats 0 c hc
    simp only [Nat.zero_add] at hmem
    apply hmemBuild
    rw [successBuild_events]
    apply List.mem_append_left
    rw [sbStage3_events]
    apply List.mem_append_left
    apply List.mem_append_left
    apply List.mem_append_left
    rw [sbStage2_events]
    apply List.mem_append_left
    exact hmem

theorem C7_ui_descriptors_witness :
    (update envOk gbW ⟨800, 600⟩ 1).1 = VK_SUCCESS ∧
    (gbW.m_info.descriptorPool ≠ 0 →
      (update envOk gbW ⟨800, 600⟩ 1).2.1.m_res.uiDescriptorSets.length
          = gbW.m_info.colorFormats.length ∧
      Event.createDescriptorSetLayout (update envOk gbW ⟨800, 600⟩ 1).2.1.m_descLayout uiBinding
          ∈ (update envOk gbW ⟨800, 600⟩ 1).2.2 ∧
      Event.allocateDescriptorSets gbW.m_info.descriptorPool
          (List.replicate gbW.m_info.colorFormats.length
            (update envOk gbW ⟨800, 600⟩ 1).2.1.m_descLayout)
          (update envOk gbW ⟨800, 600⟩ 1).2.1.m_res.uiDescriptorSets
          ∈ (update envOk gbW ⟨800, 600⟩ 1).2.2 ∧
      (∃ writes, Event.updateDescriptorSets writes ∈ (update envOk gbW ⟨800, 600⟩ 1).2.2 ∧
        writes.length = gbW.m_info.colorFormats.length ∧
        ∀ d, d < gbW.m_info.colorFormats.length →
          writes.getD d wNull =
            { dstSet := getDescriptorSet (update envOk gbW ⟨800, 600⟩ 1).2.1 d
              descriptorCount := 1
              descriptorType := .combinedImageSampler
              sampler := gbW.m_info.imageSampler
              imageView := (update envOk gbW ⟨800, 600⟩ 1).2.1.m_res.uiImageViews.getD d 0
              imageLayout := .shaderReadOnlyOptimal })) ∧
    (gbW.m_info.descriptorPool = 0 →
      (update envOk gbW ⟨800, 600⟩ 1).2.1.m_res.uiDescriptorSets = []) ∧
    (update envOk gbW ⟨800, 600⟩ 1).2.1.m_res.uiImageViews.length
        = gbW.m_info.colorFormats.length ∧
    (∀ c, c < gbW.m_info.colorFormats.length →
      Event.createImageView ((update envOk gbW ⟨800, 600⟩ 1).2.1.m_res.uiImageViews.getD c 0)
        { image := getColorImage (update envOk gbW ⟨800, 600⟩ 1).2.1 c
          format := gbW.m_info.colorFormats.getD c 0
          aspect := .color
          alphaSwizzleOne := true } ∈ (update envOk gbW ⟨800, 600⟩ 1).2.2) :=
  C7_ui_descriptors envOk gbW ⟨800, 600⟩ 1 7 rfl (by decide) (fun _ => rfl)
    (fun h => absurd h (by decide))

theorem cmdsOf_append (a b : List Event) : cmdsOf (a ++ b) = cmdsOf a ++ cmdsOf b := by
  simp [cmdsOf, List.filterMap_append]

theorem cmdsOf_nil_of_teardown (l : List Event) (h : ∀ e ∈ l, e.isTeardown = true) :
    cmdsOf l = [] := by
  rw [cmdsOf, List.filterMap_eq_nil]
  intro e he
  have := h e he
  cases e <;> simp_all [Event.isTeardown]

theorem cmdsOf_map_cmd (l : List Cmd) : cmdsOf (l.map Event.cmd) = l := by
  simp [cmdsOf, List.filterMap_map]
  show List.filterMap (fun c => some c) l = l
  simp

/-- Helper: updating tracked layouts does not change the image handles the
barrier and clear constructors read. -/
theorem map_image_comp_withLayout {β : Type} (l : List Image) (L : VkImageLayout)
    (F : Handle → β) :
    (l.map (imageWithLayout · L)).map (fun im => F im.image)
      = l.map (fun im => F im.image) := by
  rw [List.map_map]
  rfl

/-- Helper: the commands recorded by a successful build are exactly the
phase-A barrier batch, the clears, and the phase-C barrier batch. -/
theorem successBuild_cmds (env : Env) (info : GBufferInitInfo) (size : VkExtent2D)
    (res0 : GBufferResources) (d0 : Handle) :
    cmdsOf (successBuild env info size res0 d0).events
      = Cmd.pipelineBarrier2 (phaseABarriers info
          (sbStage2 env info size res0 d0).res.gBufferColor
          (sbStage2 env info size res0 d0).res.gBufferColorMSAA
          (sbStage2 env info size res0 d0).res.gBufferDepth)
        :: ((phaseClears info
          (sbStage2 env info size res0 d0).res.gBufferColor
          (sbStage2 env info size res0 d0).res.gBufferColorMSAA
          (sbStage2 env info size res0 d0).res.gBufferDepth)
        ++ [Cmd.pipelineBarrier2 (phaseCBarriers info
          (sbStage2 env info size res0 d0).res.gBufferColor
          (sbStage2 env info size res0 d0).res.gBufferColorMSAA
          (sbStage2 env info size res0 d0).res.gBufferDepth)]) := by
  rw [successBuild_events, cmdsOf_append, sbStage3_events]
  have hdesc : cmdsOf (if info.descriptorPool ≠ 0 then
      descEventsAt env info (sbStage3 env info size res0 d0).k
        (sbStage3 env info size res0 d0).res.uiImageViews else []) = [] := by
    split_ifs <;> rfl
  have hst2 : cmdsOf (sbStage2 env info size res0 d0).events = [] := by
    rw [sbStage2_events, cmdsOf_append, loopEvents_no_cmd]
    have : cmdsOf (if info.depthFormat ≠ VK_FORMAT_UNDEFINED then
        [Event.allocCreateImage (env.h1 (info.colorFormats.length * cpc info))
          (env.h2 (info.colorFormats.length * cpc info))
          (depthImageInfo info size) (depthViewInfo info)] else []) = [] := by
      split_ifs <;> rfl
    rw [this]
    rfl
  rw [hdesc, cmdsOf_append, cmdsOf_append, cmdsOf_append, hst2, cmdsOf_map_cmd]
  simp [cmdsOf]

theorem phaseABarriers_perm (info : GBufferInitInfo) (colors msaas : List Image)
    (depthImg : Image) (hc : colors.length = info.colorFormats.length)
    (hmm : if 1 < info.sampleCount then msaas.length = info.colorFormats.length
      else msaas = []) :
    (phaseABarriers info colors msaas depthImg).Perm
      (colors.map (fun im => barrierToTransferDst .color im.image)
        ++ msaas.map (fun im => barrierToTransferDst .color im.image)
        ++ (if depthImg.image ≠ 0 then [barrierToTransferDst .depth depthImg.image] else [])) :=
  phase_perm info colors msaas (barrierToTransferDst .color) (barrierToTransferDst .color)
    _ hc hmm

theorem phaseClears_perm (info : GBufferInitInfo) (colors msaas : List Image)
    (depthImg : Image) (hc : colors.length = info.colorFormats.length)
    (hmm : if 1 < info.sampleCount then msaas.length = info.colorFormats.length
      else msaas = []) :
    (phaseClears info colors msaas depthImg).Perm
      (colors.map (fun im => clearCmdColor im.image)
        ++ msaas.map (fun im => clearCmdColor im.image)
        ++ (if depthImg.image ≠ 0 then [clearCmdDepth depthImg.image] else [])) :=
  phase_perm info colors msaas clearCmdColor clearCmdColor _ hc hmm

theorem phaseCBarriers_perm (info : GBufferInitInfo) (colors msaas : List Image)
    (depthImg : Image) (hc : colors.length = info.colorFormats.length)
    (hmm : if 1 < info.sampleCount then msaas.length = info.colorFormats.length
      else msaas = []) :
    (phaseCBarriers info colors msaas depthImg).Perm
      (colors.map (fun im => barrierColorFinal im.image)
        ++ msaas.map (fun im => barrierMsaaFinal im.image)
        ++ (if depthImg.image ≠ 0 then [barrierDepthFinal depthImg.image] else [])) :=
  phase_perm info colors msaas barrierColorFinal barrierMsaaFinal _ hc hmm

/-- C1: on a successful rebuilding `update` (allocator present, oracle
succeeding with non-null image handles), the commands recorded into the
supplied command buffer form exactly three ordered phases: one batched
barrier call moving every newly created image (the `N` color targets, the
MSAA shadows when the sample count exceeds 1, the depth image when
configured) from undefined to transfer-destination layout; then one clear
per image in transfer-destination layout — color and MSAA cleared to
`(0,0,0,0)`, depth to depth `1.0` / stencil `0`; then one batched barrier
call moving color images to shader-read-only, MSAA images to
color-attachment, and the depth image to depth-stencil-attachment layout. -/
theorem C1_three_phase_commands (env : Env) (gb : GBuffer) (s : VkExtent2D) (sc : Nat)
    (dev : Handle)
    (halloc : gb.m_info.allocator = some dev)
    (hne : ¬(s.width = gb.m_size.width ∧ s.height = gb.m_size.height
      ∧ sc = gb.m_info.sampleCount))
    (henv : ∀ k, env.res k = VK_SUCCESS)
    (hh1 : ∀ k, env.h1 k ≠ 0) :
    (update env gb s sc).1 = VK_SUCCESS ∧
    ∃ A B C',
      cmdsOf ((update env gb s sc).2.2)
        = Cmd.pipelineBarrier2 A :: (B ++ [Cmd.pipelineBarrier2 C']) ∧
      A.Perm ((update env gb s sc).2.1.m_res.gBufferColor.map
            (fun im => barrierToTransferDst .color im.image)
          ++ (update env gb s sc).2.1.m_res.gBufferColorMSAA.map
            (fun im => barrierToTransferDst .color im.image)
          ++ (if gb.m_info.depthFormat ≠ VK_FORMAT_UNDEFINED then
            [barrierToTransferDst .depth (getDepthImage (update env gb s sc).2.1)] else [])) ∧
      B.Perm ((update env gb s sc).2.1.m_res.gBufferColor.map
            (fun im => clearCmdColor im.image)
          ++ (update env gb s sc).2.1.m_res.gBufferColorMSAA.map
            (fun im => clearCmdColor im.image)
          ++ (if gb.m_info.depthFormat ≠ VK_FORMAT_UNDEFINED then
            [clearCmdDepth (getDepthImage (update env gb s sc).2.1)] else [])) ∧
      C'.Perm ((update env gb s sc).2.1.m_res.gBufferColor.map
            (fun im => barrierColorFinal im.image)
          ++ (update env gb s sc).2.1.m_res.gBufferColorMSAA.map
            (fun im => barrierMsaaFinal im.image)
          ++ (if gb.m_info.depthFormat ≠ VK_FORMAT_UNDEFINED then
            [barrierDepthFinal (getDepthImage (update env gb s sc).2.1)] else [])) ∧
      (update env gb s sc).2.1.m_res.gBufferColor.length = gb.m_info.colorFormats.length ∧
      (1 < sc → (update env gb s sc).2.1.m_res.gBufferColorMSAA.length
        = gb.m_info.colorFormats.length) ∧
      (¬1 < sc → (update env gb s sc).2.1.m_res.gBufferColorMSAA = []) := by
  obtain ⟨hd1, hd2, hd3, hd4⟩ := deinitResources_res gb dev halloc
  have hupd := update_rebuild_success env gb s sc hne henv
  set infoU : GBufferInitInfo := { gb.m_info with sampleCount := sc } with hinfoU
  set resU : GBufferResources := (deinitResources gb).1.m_res with hresU
  set dU : Handle := (deinitResources gb).1.m_descLayout with hdU
  have hr : (update env gb s sc).1 = VK_SUCCESS := by rw [hupd]
  have hres : (update env gb s sc).2.1.m_res = (successBuild env infoU s resU dU).res := by
    rw [hupd]
  have hevs : (update env gb s sc).2.2
      = Event.deviceWaitIdle (gb.m_info.allocator.getD 0) ::
          ((deinitResources gb).2 ++ (successBuild env infoU s resU dU).events) := by
    rw [hupd]
  have hcm : cmdsOf ((update env gb s sc).2.2)
      = cmdsOf (successBuild env infoU s resU dU).events := by
    rw [hevs]
    show cmdsOf ((deinitResources gb).2 ++ _) = _
    rw [cmdsOf_append, cmdsOf_nil_of_teardown _ (deinitResources_teardown gb)]
    rfl
  have hC2 : (sbStage2 env infoU s resU dU).res.gBufferColor
      = (sbStage1 env infoU s resU dU).res.gBufferColor := sbStage2_color env _ s _ _
  have hM2 : (sbStage2 env infoU s resU dU).res.gBufferColorMSAA
      = (sbStage1 env infoU s resU dU).res.gBufferColorMSAA := sbStage2_msaa env _ s _ _
  have hclen2 : (sbStage2 env infoU s resU dU).res.gBufferColor.length
      = infoU.colorFormats.length := by
    rw [hC2, sbStage1_color_length]
  have hmm : if 1 < infoU.sampleCount then
      (sbStage2 env infoU s resU dU).res.gBufferColorMSAA.length = infoU.colorFormats.length
      else (sbStage2 env infoU s resU dU).res.gBufferColorMSAA = [] := by
    split_ifs with hm
    · rw [hM2, sbStage1_msaa_length env infoU s _ _ hm]
    · rw [hM2, sbStage1_msaa_id env infoU s _ _ hm, hresU]
      exact hd2
  have hfc : (update env gb s sc).2.1.m_res.gBufferColor
      = (sbStage2 env infoU s resU dU).res.gBufferColor.map
        (imageWithLayout · .shaderReadOnlyOptimal) := by
    rw [hres, successBuild_color, sbStage3_color]
  have hfm : (update env gb s sc).2.1.m_res.gBufferColorMSAA
      = (if 1 < infoU.sampleCount then
        (sbStage2 env infoU s resU dU).res.gBufferColorMSAA.map
          (imageWithLayout · .colorAttachmentOptimal)
      else (sbStage2 env infoU s resU dU).res.gBufferColorMSAA) := by
    rw [hres, successBuild_msaa, sbStage3_msaa]
  have hfcmap : ∀ {β : Type} (F : Handle → β),
      (update env gb s sc).2.1.m_res.gBufferColor.map (fun im => F im.image)
        = (sbStage2 env infoU s resU dU).res.gBufferColor.map (fun im => F im.image) := by
    intro β F
    rw [hfc, map_image_comp_withLayout]
  have hfmmap : ∀ {β : Type} (F : Handle → β),
      (update env gb s sc).2.1.m_res.gBufferColorMSAA.map (fun im => F im.image)
        = (sbStage2 env infoU s resU dU).res.gBufferColorMSAA.map (fun im => F im.image) := by
    intro β F
    rw [hfm]
    split_ifs
    · rw [map_image_comp_withLayout]
    · rfl
  have hdeq : ∀ {β : Type} (F : VkImageAspect → Handle → β),
      (if gb.m_info.depthFormat ≠ VK_FORMAT_UNDEFINED then
        [F .depth (getDepthImage (update env gb s sc).2.1)] else [])
      = (if (sbStage2 env infoU s resU dU).res.gBufferDepth.image ≠ 0 then
        [F .depth (sbStage2 env infoU s resU dU).res.gBufferDepth.image] else []) := by
    intro β F
    by_cases hdf : gb.m_info.depthFormat ≠ VK_FORMAT_UNDEFINED
    · have hdf' : infoU.depthFormat ≠ VK_FORMAT_UNDEFINED := hdf
      have h2 := sbStage2_depth_pos env infoU s resU dU hdf'
      have himg : (sbStage2 env infoU s resU dU).res.gBufferDepth.image ≠ 0 := by
        rw [h2]
        exact hh1 _
      rw [if_pos hdf, if_pos himg]
      have hgd : getDepthImage (update env gb s sc).2.1
          = (sbStage2 env infoU s resU dU).res.gBufferDepth.image := by
        rw [getDepthImage, hres, successBuild_depth, sbStage3_depth, if_pos himg]
        rfl
      rw [hgd]
    · have hdf' : ¬infoU.depthFormat ≠ VK_FORMAT_UNDEFINED := hdf
      have h2 := sbStage2_depth_neg env infoU s resU dU hdf'
      have himg : ¬(sbStage2 env infoU s resU dU).res.gBufferDepth.image ≠ 0 := by
        rw [h2, hresU]
        simpa using hd4
      rw [if_neg hdf, if_neg himg]
  refine ⟨hr,
    phaseABarriers infoU (sbStage2 env infoU s resU dU).res.gBufferColor
      (sbStage2 env infoU s resU dU).res.gBufferColorMSAA
      (sbStage2 env infoU s resU dU).res.gBufferDepth,
    phaseClears infoU (sbStage2 env infoU s resU dU).res.gBufferColor
      (sbStage2 env infoU s resU dU).res.gBufferColorMSAA
      (sbStage2 env infoU s resU dU).res.gBufferDepth,
    phaseCBarriers infoU (sbStage2 env infoU s resU dU).res.gBufferColor
      (sbStage2 env infoU s resU dU).res.gBufferColorMSAA
      (sbStage2 env infoU s resU dU).res.gBufferDepth,
    ?_, ?_, ?_, ?_, ?_, ?_, ?_⟩
  · rw [hcm, successBuild_cmds]
  · rw [hfcmap (fun h => barrierToTransferDst .color h),
      hfmmap (fun h => barrierToTransferDst .color h),
      hdeq (fun a h => barrierToTransferDst a h)]
    exact phaseABarriers_perm infoU _ _ _ hclen2 hmm
  · rw [hfcmap (fun h => clearCmdColor h), hfmmap (fun h => clearCmdColor h),
      hdeq (fun _ h => clearCmdDepth h)]
    exact phaseClears_perm infoU _ _ _ hclen2 hmm
  · rw [hfcmap (fun h => barrierColorFinal h), hfmmap (fun h => barrierMsaaFinal h),
      hdeq (fun _ h => barrierDepthFinal h)]
    exact phaseCBarriers_perm infoU _ _ _ hclen2 hmm
  · rw [hfc, List.length_map, hclen2]
  · intro hm
    have hm' : 1 < infoU.sampleCount := hm
    rw [hfm, if_pos hm', List.length_map, hM2,
      sbStage1_msaa_length env infoU s _ _ hm']
  · intro hm
    have hm' : ¬1 < infoU.sampleCount := hm
    rw [hfm, if_neg hm', hM2, sbStage1_msaa_id env infoU s _ _ hm', hresU]
    exact hd2

theorem C1_three_phase_commands_witness :
    (update envOk gbW ⟨800, 600⟩ 1).1 = VK_SUCCESS ∧
    ∃ A B C',
      cmdsOf ((update envOk gbW ⟨800, 600⟩ 1).2.2)
        = Cmd.pipelineBarrier2 A :: (B ++ [Cmd.pipelineBarrier2 C']) ∧
      A.Perm ((update envOk gbW ⟨800, 600⟩ 1).2.1.m_res.gBufferColor.map
            (fun im => barrierToTransferDst .color im.image)
          ++ (update envOk gbW ⟨800, 600⟩ 1).2.1.m_res.gBufferColorMSAA.map
            (fun im => barrierToTransferDst .color im.image)
          ++ (if gbW.m_info.depthFormat ≠ VK_FORMAT_UNDEFINED then
            [barrierToTransferDst .depth (getDepthImage (update envOk gbW ⟨800, 600⟩ 1).2.1)]
          else [])) ∧
      B.Perm ((update envOk gbW ⟨800, 600⟩ 1).2.1.m_res.gBufferColor.map
            (fun im => clearCmdColor im.image)
          ++ (update envOk gbW ⟨800, 600⟩ 1).2.1.m_res.gBufferColorMSAA.map
            (fun im => clearCmdColor im.image)
          ++ (if gbW.m_info.depthFormat ≠ VK_FORMAT_UNDEFINED then
            [clearCmdDepth (getDepthImage (update envOk gbW ⟨800, 600⟩ 1).2.1)] else [])) ∧
      C'.Perm ((update envOk gbW ⟨800, 600⟩ 1).2.1.m_res.gBufferColor.map
            (fun im => barrierColorFinal im.image)
          ++ (update envOk gbW ⟨800, 600⟩ 1).2.1.m_res.gBufferColorMSAA.map
            (fun im => barrierMsaaFinal im.image)
          ++ (if gbW.m_info.depthFormat ≠ VK_FORMAT_UNDEFINED then
            [barrierDepthFinal (getDepthImage (update envOk gbW ⟨800, 600⟩ 1).2.1)] else [])) ∧
      (update envOk gbW ⟨800, 600⟩ 1).2.1.m_res.gBufferColor.length
          = gbW.m_info.colorFormats.length ∧
      (1 < 1 → (update envOk gbW ⟨800, 600⟩ 1).2.1.m_res.gBufferColorMSAA.length
          = gbW.m_info.colorFormats.length) ∧
      (¬1 < 1 → (update envOk gbW ⟨800, 600⟩ 1).2.1.m_res.gBufferColorMSAA = []) :=
  C1_three_phase_commands envOk gbW ⟨800, 600⟩ 1 7 rfl (by decide) (fun _ => rfl)
    (fun k => by show 2 * k + 1 ≠ 0; omega)

theorem C6_rebuild_order_witness :
    (update envOk gbW ⟨800, 600⟩ 1).2.2 =
      Event.deviceWaitIdle 7 ::
        ((deinitResources gbW).2 ++
          (initResources envOk { gbW.m_info with sampleCount := 1 } ⟨800, 600⟩
            (deinitResources gbW).1.m_res (deinitResources gbW).1.m_descLayout).2.events) ∧
    (∀ e ∈ (deinitResources gbW).2, e.isTeardown = true) ∧
    (∀ e ∈ (initResources envOk { gbW.m_info with sampleCount := 1 } ⟨800, 600⟩
        (deinitResources gbW).1.m_res (deinitResources gbW).1.m_descLayout).2.events,
      e.isBuild = true) :=
  C6_rebuild_order envOk gbW ⟨800, 600⟩ 1 7 rfl (by decide)

/-- Helper: one color iteration either succeeds having consumed `cpc`
consecutive successful calls, or returns the result of its first failing
call, all calls before it in the iteration succeeding. -/
theorem colorStep_calls (env : Env) (info : GBufferInitInfo) (size : VkExtent2D)
    (c : Nat) (fmt : VkFormat) (st : BuildSt) :
    ((colorStep env info size c fmt st).1 = VK_SUCCESS →
      (colorStep env info size c fmt st).2.k = st.k + cpc info ∧
      (∀ i, st.k ≤ i → i < st.k + cpc info → env.res i = VK_SUCCESS)) ∧
    ((colorStep env info size c fmt st).1 ≠ VK_SUCCESS →
      ∃ j, st.k ≤ j ∧ env.res j = (colorStep env info size c fmt st).1 ∧
        ∀ i, st.k ≤ i → i < j → env.res i = VK_SUCCESS) := by
  by_cases hr1 : env.res st.k = VK_SUCCESS
  · by_cases hr2 : env.res (st.k + 1) = VK_SUCCESS
    · by_cases hm : 1 < info.sampleCount
      · by_cases hr3 : env.res (st.k + 2) = VK_SUCCESS
        · constructor
          · intro _
            refine ⟨by simp [colorStep, hr1, hr2, hr3, hm, cpc], ?_⟩
            intro i h1 h2
            have : i = st.k ∨ i = st.k + 1 ∨ i = st.k + 2 := by
              simp only [cpc, if_pos hm] at h2
              omega
            rcases this with rfl | rfl | rfl <;> assumption
          · intro h
            exact absurd (by simp [colorStep, hr1, hr2, hr3, hm]) h
        · constructor
          · intro h
            exact absurd h (by simp [colorStep, hr1, hr2, hr3, hm])
          · intro _
            refine ⟨st.k + 2, by omega, ?_, ?_⟩
            · simp [colorStep, hr1, hr2, hr3, hm]
            · intro i h1 h2
              have : i = st.k ∨ i = st.k + 1 := by omega
              rcases this with rfl | rfl <;> assumption
      · constructor
        · intro _
          refine ⟨by simp [colorStep, hr1, hr2, hm, cpc], ?_⟩
          intro i h1 h2
          have : i = st.k ∨ i = st.k + 1 := by
            simp only [cpc, if_neg hm] at h2
            omega
          rcases this with rfl | rfl <;> assumption
        · intro h
          exact absurd (by simp [colorStep, hr1, hr2, hm]) h
    · constructor
      · intro h
        exact absurd h (by simp [colorStep, hr1, hr2])
      · intro _
        refine ⟨st.k + 1, by omega, ?_, ?_⟩
        · simp [colorStep, hr1, hr2]
        · intro i h1 h2
          have : i = st.k := by omega
          subst this
          assumption
  · constructor
    · intro h
      exact absurd h (by simp [colorStep, hr1])
    · intro _
      exact ⟨st.k, le_refl _, by simp [colorStep, hr1],
        fun i h1 h2 => absurd h2 (by omega)⟩

/-- Helper: the color loop either succeeds with all its consecutive calls
succeeding, or returns the result of its first failing call. -/
theorem colorLoop_calls (env : Env) (info : GBufferInitInfo) (size : VkExtent2D) :
    ∀ (fmts : List VkFormat) (c : Nat) (st : BuildSt),
      ((colorLoop env info size c fmts st).1 = VK_SUCCESS →
        (colorLoop env info size c fmts st).2.k = st.k + fmts.length * cpc info ∧
        (∀ i, st.k ≤ i → i < st.k + fmts.length * cpc info → env.res i = VK_SUCCESS)) ∧
      ((colorLoop env info size c fmts st).1 ≠ VK_SUCCESS →
        ∃ j, st.k ≤ j ∧ env.res j = (colorLoop env info size c fmts st).1 ∧
          ∀ i, st.k ≤ i → i < j → env.res i = VK_SUCCESS) := by
  intro fmts
  induction fmts with
  | nil =>
    intro c st
    constructor
    · intro _
      exact ⟨by simp [colorLoop], fun i h1 h2 => absurd h2 (by simp; omega)⟩
    · intro h
      exact absurd rfl h
  | cons f rest ih =>
    intro c st
    by_cases hs : (colorStep env info size c f st).1 = VK_SUCCESS
    · have hloopeq : colorLoop env info size c (f :: rest) st
          = colorLoop env info size (c + 1) rest (colorStep env info size c f st).2 := by
        simp only [colorLoop, if_pos hs]
      obtain ⟨hk, hzero⟩ := (colorStep_calls env info size c f st).1 hs
      obtain ⟨ihS, ihF⟩ := ih (c + 1) (colorStep env info size c f st).2
      constructor
      · intro h
        rw [hloopeq] at h ⊢
        obtain ⟨hk2, hzero2⟩ := ihS h
        constructor
        · rw [hk2, hk, List.length_cons]
          ring
        · intro i h1 h2
          by_cases hi : i < st.k + cpc info
          · exact hzero i h1 hi
          · refine hzero2 i (by omega) ?_
            rw [hk]
            simp only [List.length_cons] at h2
            have : st.k + (rest.length + 1) * cpc info
                = st.k + cpc info + rest.length * cpc info := by ring
            omega
      · intro h
        rw [hloopeq] at h ⊢
        obtain ⟨j, hj1, hj2, hj3⟩ := ihF h
        refine ⟨j, by omega, hj2, ?_⟩
        intro i h1 h2
        by_cases hi : i < st.k + cpc info
        · exact hzero i h1 hi
        · exact hj3 i (by omega) h2
    · have hloopeq : colorLoop env info size c (f :: rest) st
          = colorStep env info size c f st := by
        simp only [colorLoop, if_neg hs]
      obtain ⟨j, hj1, hj2, hj3⟩ := (colorStep_calls env info size c f st).2 hs
      constructor
      · intro h
        rw [hloopeq] at h
        exact absurd h hs
      · intro _
        rw [hloopeq]
        exact ⟨j, hj1, hj2, hj3⟩

/-- Helper: the depth step consumes one call. -/
theorem depthStep_calls (env : Env) (info : GBufferInitInfo) (size : VkExtent2D) (st : BuildSt) :
    ((depthStep env info size st).1 = VK_SUCCESS →
      (depthStep env info size st).2.k = st.k + 1 ∧
      (∀ i, st.k ≤ i → i < st.k + 1 → env.res i = VK_SUCCESS)) ∧
    ((depthStep env info size st).1 ≠ VK_SUCCESS →
      ∃ j, st.k ≤ j ∧ env.res j = (depthStep env info size st).1 ∧
        ∀ i, st.k ≤ i → i < j → env.res i = VK_SUCCESS) := by
  by_cases hr : env.res st.k = VK_SUCCESS
  · constructor
    · intro _
      refine ⟨by simp [depthStep, hr], ?_⟩
      intro i h1 h2
      have : i = st.k := by omega
      subst this
      assumption
    · intro h
      exact absurd (by simp [depthStep, hr]) h
  · constructor
    · intro h
      exact absurd h (by simp [depthStep, hr])
    · intro _
      exact ⟨st.k, le_refl _, by simp [depthStep, hr],
        fun i h1 h2 => absurd h2 (by omega)⟩

/-- Helper: the descriptor step consumes two calls. -/
theorem descStep_calls (env : Env) (info : GBufferInitInfo) (st : BuildSt) :
    ((descStep env info st).1 = VK_SUCCESS →
      (descStep env info st).2.k = st.k + 2 ∧
      (∀ i, st.k ≤ i → i < st.k + 2 → env.res i = VK_SUCCESS)) ∧
    ((descStep env info st).1 ≠ VK_SUCCESS →
      ∃ j, st.k ≤ j ∧ env.res j = (descStep env info st).1 ∧
        ∀ i, st.k ≤ i → i < j → env.res i = VK_SUCCESS) := by
  by_cases hr1 : env.res st.k = VK_SUCCESS
  · by_cases hr2 : env.res (st.k + 1) = VK_SUCCESS
    · constructor
      · intro _
        refine ⟨by simp [descStep, hr1, hr2], ?_⟩
        intro i h1 h2
        have : i = st.k ∨ i = st.k + 1 := by omega
        rcases this with rfl | rfl <;> assumption
      · intro h
        exact absurd (by simp [descStep, hr1, hr2]) h
    · constructor
      · intro h
        exact absurd h (by simp [descStep, hr1, hr2])
      · intro _
        refine ⟨st.k + 1, by omega, ?_, ?_⟩
        · simp [descStep, hr1, hr2]
        · intro i h1 h2
          have : i = st.k := by omega
          subst this
          assumption
  · constructor
    · intro h
      exact absurd h (by simp [descStep, hr1])
    · intro _
      exact ⟨st.k, le_refl _, by simp [descStep, hr1],
        fun i h1 h2 => absurd h2 (by omega)⟩

/-- Helper: when `initResources` fails, the returned code is the result of
the first failing external call: every call at an earlier position
succeeded. -/
theorem initResources_first_fail (env : Env) (info : GBufferInitInfo) (size : VkExtent2D)
    (res0 : GBufferResources) (d0 : Handle)
    (h : (initResources env info size res0 d0).1 ≠ VK_SUCCESS) :
    ∃ j, env.res j = (initResources env info size res0 d0).1 ∧
      ∀ i, i < j → env.res i = VK_SUCCESS := by
  have hk0 : (initStart info res0 d0).k = 0 := rfl
  by_cases h1 : (colorLoop env info size 0 info.colorFormats (initStart info res0 d0)).1
      = VK_SUCCESS
  · obtain ⟨hk1, hz1⟩ := (colorLoop_calls env info size info.colorFormats 0
      (initStart info res0 d0)).1 h1
    rw [hk0, Nat.zero_add] at hk1 hz1
    have hs2 : initStage2 env info size
        (colorLoop env info size 0 info.colorFormats (initStart info res0 d0))
        = (if info.depthFormat ≠ VK_FORMAT_UNDEFINED then
          depthStep env info size
            (colorLoop env info size 0 info.colorFormats (initStart info res0 d0)).2
        else (VK_SUCCESS,
          (colorLoop env info size 0 info.colorFormats (initStart info res0 d0)).2)) := by
      simp [initStage2, h1]
    by_cases hd : info.depthFormat ≠ VK_FORMAT_UNDEFINED
    · rw [if_pos hd] at hs2
      by_cases h2 : (depthStep env info size
          (colorLoop env info size 0 info.colorFormats (initStart info res0 d0)).2).1
          = VK_SUCCESS
      · obtain ⟨hk2, hz2⟩ := (depthStep_calls env info size
          (colorLoop env info size 0 info.colorFormats (initStart info res0 d0)).2).1 h2
        have hres3 : initResources env info size res0 d0
            = initStage3 env info (depthStep env info size
              (colorLoop env info size 0 info.colorFormats (initStart info res0 d0)).2) := by
          rw [initResources, hs2]
        by_cases hpool : info.descriptorPool ≠ 0
        · have hfin : initResources env info size res0 d0
              = descStep env info (clearTransition info (depthStep env info size
                (colorLoop env info size 0 info.colorFormats (initStart info res0 d0)).2).2) := by
            rw [hres3]
            simp [initStage3, h2, hpool]
          rw [hfin] at h ⊢
          obtain ⟨j, hj1, hj2, hj3⟩ := (descStep_calls env info _).2 h
          have hck : (clearTransition info (depthStep env info size
              (colorLoop env info size 0 info.colorFormats (initStart info res0 d0)).2).2).k
              = (depthStep env info size
                (colorLoop env info size 0 info.colorFormats
                  (initStart info res0 d0)).2).2.k := rfl
          rw [hck, hk2, hk1] at hj1 hj3
          refine ⟨j, hj2, ?_⟩
          intro i hi
          by_cases hlt : i < info.colorFormats.length * cpc info
          · exact hz1 i (by omega) hlt
          · by_cases hlt2 : i < info.colorFormats.length * cpc info + 1
            · exact hz2 i (by rw [hk1]; omega) (by rw [hk1]; omega)
            · exact hj3 i (by omega) hi
        · exfalso
          apply h
          rw [hres3]
          simp [initStage3, h2, hpool]
      · have hfin : initResources env info size res0 d0
            = depthStep env info size
              (colorLoop env info size 0 info.colorFormats (initStart info res0 d0)).2 := by
          rw [initResources, hs2]
          simp [initStage3, h2]
        rw [hfin] at h ⊢
        obtain ⟨j, hj1, hj2, hj3⟩ := (depthStep_calls env info size _).2 h
        rw [hk1] at hj1 hj3
        refine ⟨j, hj2, ?_⟩
        intro i hi
        by_cases hlt : i < info.colorFormats.length * cpc info
        · exact hz1 i (by omega) hlt
        · exact hj3 i (by omega) hi
    · rw [if_neg hd] at hs2
      by_cases hpool : info.descriptorPool ≠ 0
      · have hfin : initResources env info size res0 d0
            = descStep env info (clearTransition info
              (colorLoop env info size 0 info.colorFormats (initStart info res0 d0)).2) := by
          rw [initResources, hs2]
          simp [initStage3, hpool]
        rw [hfin] at h ⊢
        obtain ⟨j, hj1, hj2, hj3⟩ := (descStep_calls env info _).2 h
        have hck : (clearTransition info
            (colorLoop env info size 0 info.colorFormats (initStart info res0 d0)).2).k
            = (colorLoop env info size 0 info.colorFormats (initStart info res0 d0)).2.k := rfl
        rw [hck, hk1] at hj1 hj3
        refine ⟨j, hj2, ?_⟩
        intro i hi
        by_cases hlt : i < info.colorFormats.length * cpc info
        · exact hz1 i (by omega) hlt
        · exact hj3 i (by omega) hi
      · exfalso
        apply h
        rw [initResources, hs2]
        simp [initStage3, hpool]
  · have hfin : initResources env info size res0 d0
        = colorLoop env info size 0 info.colorFormats (initStart info res0 d0) := by
      rw [initResources]
      have hs2 : initStage2 env info size
          (colorLoop env info size 0 info.colorFormats (initStart info res0 d0))
          = colorLoop env info size 0 info.colorFormats (initStart info res0 d0) := by
        simp [initStage2, h1]
      rw [hs2]
      simp [initStage3, h1]
    rw [hfin] at h ⊢
    obtain ⟨j, hj1, hj2, hj3⟩ := (colorLoop_calls env info size info.colorFormats 0
      (initStart info res0 d0)).2 h
    rw [hk0] at hj1 hj3
    exact ⟨j, hj2, fun i hi => hj3 i (by omega) hi⟩

/-- Helper: if one color iteration succeeds, it equals its success
transformer (only the calls it actually made need to have succeeded). -/
theorem colorStep_success_local (env : Env) (info : GBufferInitInfo) (size : VkExtent2D)
    (c : Nat) (fmt : VkFormat) (st : BuildSt)
    (h : (colorStep env info size c fmt st).1 = VK_SUCCESS) :
    colorStep env info size c fmt st = (VK_SUCCESS, stepSpec env info size c fmt st) := by
  by_cases hr1 : env.res st.k = VK_SUCCESS
  · by_cases hr2 : env.res (st.k + 1) = VK_SUCCESS
    · by_cases hm : 1 < info.sampleCount
      · by_cases hr3 : env.res (st.k + 2) = VK_SUCCESS
        · simp [colorStep, stepSpec, colorStepEvents, colorEntryAt, msaaEntryAt, cpc,
            hr1, hr2, hr3, hm, List.set_set, List.append_assoc]
        · exact absurd h (by simp [colorStep, hr1, hr2, hr3, hm])
      · simp [colorStep, stepSpec, colorStepEvents, colorEntryAt, msaaEntryAt, cpc,
          hr1, hr2, hm, List.set_set, List.append_assoc]
    · exact absurd h (by simp [colorStep, hr1, hr2])
  · exact absurd h (by simp [colorStep, hr1])

/-- Helper: the success transformer reads only the handle streams, which
`Env.allOk` leaves untouched. -/
theorem stepSpec_allOk (env : Env) (info : GBufferInitInfo) (size : VkExtent2D)
    (c : Nat) (fmt : VkFormat) (st : BuildSt) :
    stepSpec (Env.allOk env) info size c fmt st = stepSpec env info size c fmt st := rfl

/-- Helper: a succeeding iteration computes the same under the all-ok
oracle. -/
theorem colorStep_agree (env : Env) (info : GBufferInitInfo) (size : VkExtent2D)
    (c : Nat) (fmt : VkFormat) (st : BuildSt)
    (h : (colorStep env info size c fmt st).1 = VK_SUCCESS) :
    colorStep env info size c fmt st = colorStep (Env.allOk env) info size c fmt st := by
  rw [colorStep_success_local env info size c fmt st h,
    colorStep_success (Env.allOk env) info size c fmt st (fun _ => rfl), stepSpec_allOk]

/-- Helper: the full event block of one iteration extends the events of the
iteration, whether it failed or not. -/
theorem colorStep_events_pre (env : Env) (info : GBufferInitInfo) (size : VkExtent2D)
    (c : Nat) (fmt : VkFormat) (st : BuildSt) :
    ∃ t, st.events ++ colorStepEvents env info size fmt st.k
      = (colorStep env info size c fmt st).2.events ++ t := by
  by_cases hr1 : env.res st.k = VK_SUCCESS
  · by_cases hr2 : env.res (st.k + 1) = VK_SUCCESS
    · by_cases hm : 1 < info.sampleCount
      · by_cases hr3 : env.res (st.k + 2) = VK_SUCCESS
        · exact ⟨[], by simp [colorStep, colorStepEvents, hr1, hr2, hr3, hm,
            List.append_assoc]⟩
        · refine ⟨[], ?_⟩
          simp [colorStep, colorStepEvents, hr1, hr2, hr3, hm, List.append_assoc]
      · exact ⟨[], by simp [colorStep, colorStepEvents, hr1, hr2, hm, List.append_assoc]⟩
    · by_cases hm : 1 < info.sampleCount
      · refine ⟨[Event.allocCreateImage (env.h1 (st.k + 2)) (env.h2 (st.k + 2))
          (msaaImageInfo info size fmt) (uiViewInfo fmt (env.h1 st.k))], ?_⟩
        simp [colorStep, colorStepEvents, hr1, hr2, hm, List.append_assoc]
      · exact ⟨[], by simp [colorStep, colorStepEvents, hr1, hr2, hm, List.append_assoc]⟩
  · by_cases hm : 1 < info.sampleCount
    · refine ⟨[Event.createImageView (env.h1 (st.k + 1)) (uiViewInfo fmt (env.h1 st.k)),
        Event.allocCreateImage (env.h1 (st.k + 2)) (env.h2 (st.k + 2))
          (msaaImageInfo info size fmt) (uiViewInfo fmt (env.h1 st.k))], ?_⟩
      simp [colorStep, colorStepEvents, hr1, hm, List.append_assoc]
    · refine ⟨[Event.createImageView (env.h1 (st.k + 1)) (uiViewInfo fmt (env.h1 st.k))], ?_⟩
      simp [colorStep, colorStepEvents, hr1, hm, List.append_assoc]

/-- Helper: a succeeding color loop computes the same under the all-ok
oracle. -/
theorem colorLoop_agree (env : Env) (info : GBufferInitInfo) (size : VkExtent2D) :
    ∀ (fmts : List VkFormat) (c : Nat) (st : BuildSt),
      (colorLoop env info size c fmts st).1 = VK_SUCCESS →
      colorLoop env info size c fmts st = colorLoop (Env.allOk env) info size c fmts st := by
  intro fmts
  induction fmts with
  | nil => intro c st _; rfl
  | cons f rest ih =>
    intro c st h
    by_cases hs : (colorStep env info size c f st).1 = VK_SUCCESS
    · have hag := colorStep_agree env info size c f st hs
      have h0 : (colorStep (Env.allOk env) info size c f st).1 = VK_SUCCESS := by
        rw [← hag]
        exact hs
      rw [colorLoop, if_pos hs] at h ⊢
      rw [show colorLoop (Env.allOk env) info size c (f :: rest) st
        = colorLoop (Env.allOk env) info size (c + 1) rest
          (colorStep (Env.allOk env) info size c f st).2 from by
          rw [colorLoop, if_pos h0], ← hag]
      exact ih (c + 1) _ h
    · rw [colorLoop, if_neg hs] at h
      exact absurd h hs

/-- Helper: one iteration only appends events. -/
theorem colorStep_events_mono (env : Env) (info : GBufferInitInfo) (size : VkExtent2D)
    (c : Nat) (fmt : VkFormat) (st : BuildSt) :
    ∃ t, (colorStep env info size c fmt st).2.events = st.events ++ t := by
  simp only [colorStep]
  split_ifs <;> (simp only [List.append_assoc]; exact ⟨_, rfl⟩)

/-- Helper: events only ever grow along the loop. -/
theorem colorLoop_events_mono (env : Env) (info : GBufferInitInfo) (size : VkExtent2D) :
    ∀ (fmts : List VkFormat) (c : Nat) (st : BuildSt),
      ∃ t, (colorLoop env info size c fmts st).2.events = st.events ++ t := by
  intro fmts
  induction fmts with
  | nil => intro c st; exact ⟨[], by simp [colorLoop]⟩
  | cons f rest ih =>
    intro c st
    obtain ⟨t0, ht0⟩ := colorStep_events_mono env info size c f st
    by_cases hs : (colorStep env info size c f st).1 = VK_SUCCESS
    · obtain ⟨t1, ht1⟩ := ih (c + 1) (colorStep env info size c f st).2
      refine ⟨t0 ++ t1, ?_⟩
      rw [colorLoop, if_pos hs, ht1, ht0, List.append_assoc]
    · refine ⟨t0, ?_⟩
      rw [colorLoop, if_neg hs]
      exact ht0

/-- Helper: the trace of a possibly-failing color loop is a prefix of the
trace of the same loop under the all-ok oracle. -/
theorem colorLoop_events_pre (env : Env) (info : GBufferInitInfo) (size : VkExtent2D) :
    ∀ (fmts : List VkFormat) (c : Nat) (st : BuildSt),
      ∃ t, (colorLoop (Env.allOk env) info size c fmts st).2.events
        = (colorLoop env info size c fmts st).2.events ++ t := by
  intro fmts
  induction fmts with
  | nil => intro c st; exact ⟨[], by simp [colorLoop]⟩
  | cons f rest ih =>
    intro c st
    by_cases hs : (colorStep env info size c f st).1 = VK_SUCCESS
    · have hag := colorStep_agree env info size c f st hs
      have h0 : (colorStep (Env.allOk env) info size c f st).1 = VK_SUCCESS := by
        rw [← hag]; exact hs
      rw [show colorLoop env info size c (f :: rest) st
          = colorLoop env info size (c + 1) rest (colorStep env info size c f st).2 from by
        rw [colorLoop, if_pos hs]]
      rw [show colorLoop (Env.allOk env) info size c (f :: rest) st
          = colorLoop (Env.allOk env) info size (c + 1) rest
            (colorStep (Env.allOk env) info size c f st).2 from by
        rw [colorLoop, if_pos h0]]
      rw [← hag]
      exact ih (c + 1) _
    · rw [show colorLoop env info size c (f :: rest) st
          = colorStep env info size c f st from by rw [colorLoop, if_neg hs]]
      have h0 : colorStep (Env.allOk env) info size c f st
          = (VK_SUCCESS, stepSpec env info size c f st) := by
        rw [colorStep_success (Env.allOk env) info size c f st (fun _ => rfl), stepSpec_allOk]
      rw [show colorLoop (Env.allOk env) info size c (f :: rest) st
          = colorLoop (Env.allOk env) info size (c + 1) rest
            (stepSpec env info size c f st) from by
        rw [colorLoop, h0]
        simp]
      obtain ⟨t1, ht1⟩ := colorLoop_events_mono (Env.allOk env) info size rest (c + 1)
        (stepSpec env info size c f st)
      obtain ⟨t0, ht0⟩ := colorStep_events_pre env info size c f st
      refine ⟨t0 ++ t1, ?_⟩
      rw [ht1]
      have hss : (stepSpec env info size c f st).events
          = st.events ++ colorStepEvents env info size f st.k := rfl
      rw [hss, ht0, List.append_assoc]

/-- Helper: a succeeding depth step computes the same under the all-ok
oracle. -/
theorem depthStep_agree (env : Env) (info : GBufferInitInfo) (size : VkExtent2D)
    (st : BuildSt) (h : (depthStep env info size st).1 = VK_SUCCESS) :
    depthStep env info size st = depthStep (Env.allOk env) info size st := by
  by_cases hr : env.res st.k = VK_SUCCESS
  · simp [depthStep, hr, Env.allOk]
  · exact absurd h (by simp [depthStep, hr])

/-- Helper: the trace of a possibly-failing depth step is a prefix of the
all-ok one. -/
theorem depthStep_events_pre (env : Env) (info : GBufferInitInfo) (size : VkExtent2D)
    (st : BuildSt) :
    ∃ t, (depthStep (Env.allOk env) info size st).2.events
      = (depthStep env info size st).2.events ++ t := by
  by_cases hr : env.res st.k = VK_SUCCESS
  · exact ⟨[], by simp [depthStep, hr, Env.allOk]⟩
  · exact ⟨[], by simp [depthStep, hr, Env.allOk]⟩

/-- Helper: a succeeding descriptor step computes the same under the all-ok
oracle. -/
theorem descStep_agree (env : Env) (info : GBufferInitInfo) (st : BuildSt)
    (h : (descStep env info st).1 = VK_SUCCESS) :
    descStep env info st = descStep (Env.allOk env) info st := by
  by_cases hr1 : env.res st.k = VK_SUCCESS
  · by_cases hr2 : env.res (st.k + 1) = VK_SUCCESS
    · simp [descStep, hr1, hr2, Env.allOk]
    · exact absurd h (by simp [descStep, hr1, hr2])
  · exact absurd h (by simp [descStep, hr1])

/-- Helper: the trace of a possibly-failing descriptor step is a prefix of
the all-ok one. -/
theorem descStep_events_pre (env : Env) (info : GBufferInitInfo) (st : BuildSt) :
    ∃ t, (descStep (Env.allOk env) info st).2.events
      = (descStep env info st).2.events ++ t := by
  by_cases hr1 : env.res st.k = VK_SUCCESS
  · by_cases hr2 : env.res (st.k + 1) = VK_SUCCESS
    · exact ⟨[], by simp [descStep, hr1, hr2, Env.allOk]⟩
    · refine ⟨[Event.updateDescriptorSets ((List.range info.colorFormats.length).map fun d =>
        { dstSet := ((List.range info.colorFormats.length).map (env.hs (st.k + 1))).getD d 0
          descriptorCount := 1
          descriptorType := .combinedImageSampler, sampler := info.imageSampler
          imageView := st.res.uiImageViews.getD d 0
          imageLayout := .shaderReadOnlyOptimal })], ?_⟩
      simp [descStep, hr1, hr2, Env.allOk, List.append_assoc]
  · refine ⟨[Event.allocateDescriptorSets info.descriptorPool
        (List.replicate info.colorFormats.length (env.h1 st.k))
        ((List.range info.colorFormats.length).map (env.hs (st.k + 1))),
      Event.updateDescriptorSets ((List.range info.colorFormats.length).map fun d =>
        { dstSet := ((List.range info.colorFormats.length).map (env.hs (st.k + 1))).getD d 0
          descriptorCount := 1
          descriptorType := .combinedImageSampler, sampler := info.imageSampler
          imageView := st.res.uiImageViews.getD d 0
          imageLayout := .shaderReadOnlyOptimal })], ?_⟩
    simp [descStep, hr1, Env.allOk, List.append_assoc]

/-- Helper: the depth step only appends events. -/
theorem depthStep_events_mono (env : Env) (info : GBufferInitInfo) (size : VkExtent2D)
    (st : BuildSt) :
    ∃ t, (depthStep env info size st).2.events = st.events ++ t := by
  simp only [depthStep]
  split_ifs <;> exact ⟨_, rfl⟩

/-- Helper: the descriptor step only appends events. -/
theorem descStep_events_mono (env : Env) (info : GBufferInitInfo) (st : BuildSt) :
    ∃ t, (descStep env info st).2.events = st.events ++ t := by
  simp only [descStep]
  split_ifs <;> (simp only [List.append_assoc]; exact ⟨_, rfl⟩)

/-- Helper: the clear-and-transition block only appends events. -/
theorem clearTransition_events_mono (info : GBufferInitInfo) (st : BuildSt) :
    ∃ t, (clearTransition info st).events = st.events ++ t := by
  simp only [clearTransition, List.append_assoc]
  exact ⟨_, rfl⟩

/-- Helper: stage 3 reduced on a successful input with a pool configured. -/
theorem initStage3_eq_desc (env : Env) (info : GBufferInitInfo) (p2 : VkResult × BuildSt)
    (hp : p2.1 = VK_SUCCESS) (hpool : info.descriptorPool ≠ 0) :
    initStage3 env info p2 = descStep env info (clearTransition info p2.2) := by
  simp [initStage3, hp, hpool]

/-- Helper: stage 3 reduced on a successful input without a pool. -/
theorem initStage3_eq_nodesc (env : Env) (info : GBufferInitInfo) (p2 : VkResult × BuildSt)
    (hp : p2.1 = VK_SUCCESS) (hpool : ¬info.descriptorPool ≠ 0) :
    initStage3 env info p2 = (VK_SUCCESS, clearTransition info p2.2) := by
  simp [initStage3, hp, hpool]

/-- Helper: stage 3 propagates a failed input unchanged. -/
theorem initStage3_eq_fail (env : Env) (info : GBufferInitInfo) (p2 : VkResult × BuildSt)
    (hp : ¬p2.1 = VK_SUCCESS) : initStage3 env info p2 = p2 := by
  simp [initStage3, hp]

/-- Helper: stage 2 reduced on a successful input with a depth format. -/
theorem initStage2_eq_depth (env : Env) (info : GBufferInitInfo) (size : VkExtent2D)
    (p : VkResult × BuildSt) (hp : p.1 = VK_SUCCESS) (hd : info.depthFormat ≠ VK_FORMAT_UNDEFINED) :
    initStage2 env info size p = depthStep env info size p.2 := by
  simp [initStage2, hp, hd]

/-- Helper: stage 2 reduced on a successful input without a depth format. -/
theorem initStage2_eq_nodepth (env : Env) (info : GBufferInitInfo) (size : VkExtent2D)
    (p : VkResult × BuildSt) (hp : p.1 = VK_SUCCESS)
    (hd : ¬info.depthFormat ≠ VK_FORMAT_UNDEFINED) :
    initStage2 env info size p = (VK_SUCCESS, p.2) := by
  simp [initStage2, hp, hd]

/-- Helper: stage 2 propagates a failed input unchanged. -/
theorem initStage2_eq_fail (env : Env) (info : GBufferInitInfo) (size : VkExtent2D)
    (p : VkResult × BuildSt) (hp : ¬p.1 = VK_SUCCESS) : initStage2 env info size p = p := by
  simp [initStage2, hp]

/-- Helper: stage 3 only appends events. -/
theorem initStage3_events_mono (env : Env) (info : GBufferInitInfo)
    (p2 : VkResult × BuildSt) :
    ∃ t, (initStage3 env info p2).2.events = p2.2.events ++ t := by
  by_cases hp : p2.1 = VK_SUCCESS
  · obtain ⟨t0, ht0⟩ := clearTransition_events_mono info p2.2
    by_cases hpool : info.descriptorPool ≠ 0
    · obtain ⟨t1, ht1⟩ := descStep_events_mono env info (clearTransition info p2.2)
      refine ⟨t0 ++ t1, ?_⟩
      rw [initStage3_eq_desc env info p2 hp hpool, ht1, ht0, List.append_assoc]
    · refine ⟨t0, ?_⟩
      rw [initStage3_eq_nodesc env info p2 hp hpool]
      exact ht0
  · exact ⟨[], by rw [initStage3_eq_fail env info p2 hp, List.append_nil]⟩

/-- Helper: stage 2 only appends events. -/
theorem initStage2_events_mono (env : Env) (info : GBufferInitInfo) (size : VkExtent2D)
    (p : VkResult × BuildSt) :
    ∃ t, (initStage2 env info size p).2.events = p.2.events ++ t := by
  by_cases hp : p.1 = VK_SUCCESS
  · by_cases hd : info.depthFormat ≠ VK_FORMAT_UNDEFINED
    · rw [initStage2_eq_depth env info size p hp hd]
      exact depthStep_events_mono env info size p.2
    · exact ⟨[], by rw [initStage2_eq_nodepth env info size p hp hd, List.append_nil]⟩
  · exact ⟨[], by rw [initStage2_eq_fail env info size p hp, List.append_nil]⟩

/-- Helper: stage 3 on a shared, arbitrary stage-2 result produces a
failing-run trace that is a prefix of the all-ok one. -/
theorem initStage3_events_pre (env : Env) (info : GBufferInitInfo)
    (p2 : VkResult × BuildSt) :
    ∃ t, (initStage3 (Env.allOk env) info p2).2.events
      = (initStage3 env info p2).2.events ++ t := by
  by_cases hp : p2.1 = VK_SUCCESS
  · by_cases hpool : info.descriptorPool ≠ 0
    · rw [initStage3_eq_desc env info p2 hp hpool,
        initStage3_eq_desc (Env.allOk env) info p2 hp hpool]
      exact descStep_events_pre env info (clearTransition info p2.2)
    · rw [initStage3_eq_nodesc env info p2 hp hpool,
        initStage3_eq_nodesc (Env.allOk env) info p2 hp hpool]
      exact ⟨[], by rw [List.append_nil]⟩
  · rw [initStage3_eq_fail env info p2 hp, initStage3_eq_fail (Env.allOk env) info p2 hp]
    exact ⟨[], by rw [List.append_nil]⟩

/-- Helper: the failing run of `initResources` records a prefix of the trace
the all-succeeding run would record — the failure stops recording and
nothing (in particular no rollback) is appended after the failing call. -/
theorem initResources_events_pre (env : Env) (info : GBufferInitInfo) (size : VkExtent2D)
    (res0 : GBufferResources) (d0 : Handle) :
    ∃ t, (initResources (Env.allOk env) info size res0 d0).2.events
      = (initResources env info size res0 d0).2.events ++ t := by
  simp only [initResources]
  by_cases hLs : (colorLoop env info size 0 info.colorFormats (initStart info res0 d0)).1
      = VK_SUCCESS
  · rw [← colorLoop_agree env info size info.colorFormats 0 (initStart info res0 d0) hLs]
    by_cases hd : info.depthFormat ≠ VK_FORMAT_UNDEFINED
    · rw [initStage2_eq_depth env info size _ hLs hd,
        initStage2_eq_depth (Env.allOk env) info size _ hLs hd]
      by_cases hds : (depthStep env info size
          (colorLoop env info size 0 info.colorFormats (initStart info res0 d0)).2).1
          = VK_SUCCESS
      · rw [← depthStep_agree env info size _ hds]
        exact initStage3_events_pre env info _
      · rw [initStage3_eq_fail env info _ hds]
        obtain ⟨t0, ht0⟩ := depthStep_events_pre env info size
          (colorLoop env info size 0 info.colorFormats (initStart info res0 d0)).2
        obtain ⟨t1, ht1⟩ := initStage3_events_mono (Env.allOk env) info
          (depthStep (Env.allOk env) info size
            (colorLoop env info size 0 info.colorFormats (initStart info res0 d0)).2)
        exact ⟨t0 ++ t1, by rw [ht1, ht0, List.append_assoc]⟩
    · rw [initStage2_eq_nodepth env info size _ hLs hd,
        initStage2_eq_nodepth (Env.allOk env) info size _ hLs hd]
      exact initStage3_events_pre env info _
  · rw [initStage2_eq_fail env info size _ hLs, initStage3_eq_fail env info _ hLs]
    obtain ⟨t0, ht0⟩ := colorLoop_events_pre env info size info.colorFormats 0
      (initStart info res0 d0)
    obtain ⟨t1, ht1⟩ := initStage2_events_mono (Env.allOk env) info size
      (colorLoop (Env.allOk env) info size 0 info.colorFormats (initStart info res0 d0))
    obtain ⟨t2, ht2⟩ := initStage3_events_mono (Env.allOk env) info
      (initStage2 (Env.allOk env) info size
        (colorLoop (Env.allOk env) info size 0 info.colorFormats (initStart info res0 d0)))
    exact ⟨t0 ++ (t1 ++ t2), by rw [ht2, ht1, ht0, List.append_assoc, List.append_assoc]⟩

/-- Helper: one loop iteration never shrinks or grows the color container,
whether it succeeds or fails. -/
theorem colorStep_color_length (env : Env) (info : GBufferInitInfo) (size : VkExtent2D)
    (c : Nat) (fmt : VkFormat) (st : BuildSt) :
    (colorStep env info size c fmt st).2.res.gBufferColor.length
      = st.res.gBufferColor.length := by
  simp only [colorStep]
  split_ifs <;> simp [List.length_set]

/-- Helper: the loop preserves the color-container length in every outcome. -/
theorem colorLoop_color_length (env : Env) (info : GBufferInitInfo) (size : VkExtent2D) :
    ∀ (fmts : List VkFormat) (c : Nat) (st : BuildSt),
      (colorLoop env info size c fmts st).2.res.gBufferColor.length
        = st.res.gBufferColor.length := by
  intro fmts
  induction fmts with
  | nil => intro c st; rfl
  | cons f rest ih =>
    intro c st
    by_cases hs : (colorStep env info size c f st).1 = VK_SUCCESS
    · rw [colorLoop, if_pos hs, ih (c + 1) _, colorStep_color_length]
    · rw [colorLoop, if_neg hs, colorStep_color_length]

/-- Helper: the depth step leaves the color container untouched. -/
theorem depthStep_color_length (env : Env) (info : GBufferInitInfo) (size : VkExtent2D)
    (st : BuildSt) :
    (depthStep env info size st).2.res.gBufferColor.length
      = st.res.gBufferColor.length := by
  simp only [depthStep]
  split_ifs <;> rfl

/-- Helper: the descriptor step leaves the color container untouched. -/
theorem descStep_color_length (env : Env) (info : GBufferInitInfo) (st : BuildSt) :
    (descStep env info st).2.res.gBufferColor.length
      = st.res.gBufferColor.length := by
  simp only [descStep]
  split_ifs <;> rfl

/-- Helper: the clear-and-transition block maps over the color container. -/
theorem clearTransition_color_length (info : GBufferInitInfo) (st : BuildSt) :
    (clearTransition info st).res.gBufferColor.length
      = st.res.gBufferColor.length := by
  simp [clearTransition]

/-- Helper: whether the build succeeds or fails at any call, the color
container keeps the length it was resized to up front — entries created
before a failure are not removed. -/
theorem initResources_color_length (env : Env) (info : GBufferInitInfo) (size : VkExtent2D)
    (res0 : GBufferResources) (d0 : Handle) :
    (initResources env info size res0 d0).2.res.gBufferColor.length
      = info.colorFormats.length := by
  have hstart : (initStart info res0 d0).res.gBufferColor.length
      = info.colorFormats.length := by
    simp [initStart, listResize_length]
  have hL : (colorLoop env info size 0 info.colorFormats (initStart info res0 d0)).2.res.gBufferColor.length
      = info.colorFormats.length := by
    rw [colorLoop_color_length, hstart]
  simp only [initResources]
  by_cases hLs : (colorLoop env info size 0 info.colorFormats (initStart info res0 d0)).1
      = VK_SUCCESS
  · have h2len : (initStage2 env info size
        (colorLoop env info size 0 info.colorFormats (initStart info res0 d0))).2.res.gBufferColor.length
        = info.colorFormats.length := by
      by_cases hd : info.depthFormat ≠ VK_FORMAT_UNDEFINED
      · rw [initStage2_eq_depth env info size _ hLs hd, depthStep_color_length, hL]
      · rw [initStage2_eq_nodepth env info size _ hLs hd]
        exact hL
    by_cases h2s : (initStage2 env info size
        (colorLoop env info size 0 info.colorFormats (initStart info res0 d0))).1 = VK_SUCCESS
    · by_cases hpool : info.descriptorPool ≠ 0
      · rw [initStage3_eq_desc env info _ h2s hpool, descStep_color_length,
          clearTransition_color_length, h2len]
      · rw [initStage3_eq_nodesc env info _ h2s hpool]
        rw [clearTransition_color_length, h2len]
    · rw [initStage3_eq_fail env info _ h2s]
      exact h2len
  · rw [initStage2_eq_fail env info size _ hLs, initStage3_eq_fail env info _ hLs]
    exact hL

/-- C4: on a rebuilding `update` whose bundle construction fails at some
sub-operation (image, view, descriptor-set-layout or descriptor-set
allocation), the returned code is the oracle's error code of the first
failing call (every earlier call succeeded); after the device wait and the
teardown of the old bundle, the run records only construction events and
they form a prefix of what the all-succeeding run would have recorded — so
none of the remaining construction steps is performed and no rollback
(destroy/free) of the sub-resources created before the failure is recorded;
and the color container keeps the `N` entries it was resized to. -/
theorem C4_error_propagation (env : Env) (gb : GBuffer) (s : VkExtent2D) (sc : Nat)
    (hne : ¬(s.width = gb.m_size.width ∧ s.height = gb.m_size.height
      ∧ sc = gb.m_info.sampleCount))
    (hfail : (update env gb s sc).1 ≠ VK_SUCCESS) :
    (∃ j, env.res j = (update env gb s sc).1 ∧ ∀ i, i < j → env.res i = VK_SUCCESS)
    ∧ (∃ bevs t,
        (update env gb s sc).2.2
          = Event.deviceWaitIdle (gb.m_info.allocator.getD 0)
            :: ((deinitResources gb).2 ++ bevs)
        ∧ (∀ e ∈ bevs, e.isBuild = true)
        ∧ (update (Env.allOk env) gb s sc).2.2
          = Event.deviceWaitIdle (gb.m_info.allocator.getD 0)
            :: ((deinitResources gb).2 ++ (bevs ++ t)))
    ∧ (update env gb s sc).2.1.m_res.gBufferColor.length
        = gb.m_info.colorFormats.length := by
  have heq := update_rebuild_eq env gb s sc hne
  have heq2 := update_rebuild_eq (Env.allOk env) gb s sc hne
  rw [heq] at hfail
  rw [heq, heq2]
  obtain ⟨t, hpre⟩ := initResources_events_pre env { gb.m_info with sampleCount := sc } s
    (deinitResources gb).1.m_res (deinitResources gb).1.m_descLayout
  refine ⟨initResources_first_fail env _ s _ _ hfail,
    ⟨(initResources env { gb.m_info with sampleCount := sc } s
        (deinitResources gb).1.m_res (deinitResources gb).1.m_descLayout).2.events, t,
      rfl, initResources_events_build env _ s _ _, ?_⟩,
    initResources_color_length env _ s _ _⟩
  show Event.deviceWaitIdle (gb.m_info.allocator.getD 0)
      :: ((deinitResources gb).2 ++ (initResources (Env.allOk env)
        { gb.m_info with sampleCount := sc } s
        (deinitResources gb).1.m_res (deinitResources gb).1.m_descLayout).2.events)
    = _
  rw [hpre]

/-- Witness for C4 at a concrete failing oracle. -/
theorem C4_error_propagation_witness :
    (¬((800 : Nat) = gbW.m_size.width ∧ (600 : Nat) = gbW.m_size.height
      ∧ (1 : Nat) = gbW.m_info.sampleCount))
    ∧ (update envBad gbW ⟨800, 600⟩ 1).1 ≠ VK_SUCCESS
    ∧ ((∃ j, envBad.res j = (update envBad gbW ⟨800, 600⟩ 1).1
        ∧ ∀ i, i < j → envBad.res i = VK_SUCCESS)
      ∧ (∃ bevs t,
          (update envBad gbW ⟨800, 600⟩ 1).2.2
            = Event.deviceWaitIdle (gbW.m_info.allocator.getD 0)
              :: ((deinitResources gbW).2 ++ bevs)
          ∧ (∀ e ∈ bevs, e.isBuild = true)
          ∧ (update (Env.allOk envBad) gbW ⟨800, 600⟩ 1).2.2
            = Event.deviceWaitIdle (gbW.m_info.allocator.getD 0)
              :: ((deinitResources gbW).2 ++ (bevs ++ t)))
      ∧ (update envBad gbW ⟨800, 600⟩ 1).2.1.m_res.gBufferColor.length
          = gbW.m_info.colorFormats.length) :=
  ⟨by decide, by decide, C4_error_propagation envBad gbW ⟨800, 600⟩ 1 (by decide) (by decide)⟩
